import Mathlib

/-!
# Session and media plugins of the Janus gateway client

A shallow embedding of `Session` (`src/session.js`), of the parts of its
collaborators it calls, and of the entity tracking of `MediaEntityPlugin` and
`MediaStreamPlugin` (`src/webrtc`). JavaScript objects are association lists
in insertion order, the mutable session is an explicit state, and every call
the session makes on a collaborator (timer, transport, event emitter) is
appended to a trace. A request of a media plugin is recorded, and what its
promise settles to is an argument of the embedded method.
-/

namespace Janus

/-! ## JavaScript values -/

/-- Values held by the fields of a decoded message: absent or `undefined`,
`null`, booleans, strings and plain data objects (own properties in insertion
order, none of them callable). -/
inductive JVal where
  | undefined : JVal
  | null : JVal
  | bool (b : Bool) : JVal
  | str (s : String) : JVal
  | obj (fields : List (String × JVal)) : JVal

/-- A message is a plain object: `@param {Object} message`. -/
abbrev Msg := List (String × JVal)

/-- Errors the code constructs or the language raises. -/
inductive JErr where
  /-- `new Error(message)` -/
  | error (message : String) : JErr
  /-- A `TypeError` raised by the language itself. -/
  | typeError (message : String) : JErr
  /-- `new JanusError.ConnectionError(response)`: carries the response. -/
  | connectionError (response : Msg) : JErr

/-- The names of the members of `Object.prototype`, which every object made
by `{}` inherits (`__proto__` and the four `__...Getter__` and `__...Setter__`
names are those of Annex B). -/
def objectPrototypeKeys : List String :=
  ["constructor", "hasOwnProperty", "isPrototypeOf", "propertyIsEnumerable", "toLocaleString",
    "toString", "valueOf", "__proto__", "__defineGetter__", "__defineSetter__",
    "__lookupGetter__", "__lookupSetter__"]

/-- Read `o[k]` on a plain object: the first own property named `k`, else
`undefined`. Used for keys that `Object.prototype` does not define. -/
def Msg.get : Msg → String → JVal
  | [], _ => JVal.undefined
  | (k0, v) :: rest, k => if k0 = k then v else Msg.get rest k

/-- Test `k in o` for own properties. -/
def Msg.has : Msg → String → Bool
  | [], _ => false
  | (k0, _) :: rest, k => if k0 = k then true else Msg.has rest k

/-- Assign `o[k] = v`: an existing property keeps its position, a new one is
added last. -/
def Msg.set : Msg → String → JVal → Msg
  | [], k, v => [(k, v)]
  | (k0, v0) :: rest, k, v =>
    if k0 = k then (k, v) :: rest else (k0, v0) :: Msg.set rest k v

/-- Names of the own properties, in order. -/
def Msg.keys (m : Msg) : List String := m.map Prod.fst

/-- The `ToBoolean` conversion used by `if (v)`, `!v` and `||`. -/
def JVal.truthy : JVal → Bool
  | JVal.undefined => false
  | JVal.null => false
  | JVal.bool b => b
  | JVal.str s => !(s == "")
  | JVal.obj _ => true

/-- The `ToString` conversion (string concatenation and property keys). A
plain object converts through the inherited `Object.prototype.toString`; an
own property `toString` hides it, is not callable, and the inherited
`valueOf` returns the object itself, so the conversion raises a `TypeError`. -/
def JVal.toStr : JVal → Except JErr String
  | JVal.undefined => Except.ok "undefined"
  | JVal.null => Except.ok "null"
  | JVal.bool b => Except.ok (if b then "true" else "false")
  | JVal.str s => Except.ok s
  | JVal.obj fields =>
    if Msg.has fields "toString" then
      Except.error (JErr.typeError "Cannot convert object to primitive value")
    else Except.ok "[object Object]"

/-- Strict equality `lit === v` against a string literal. -/
def JVal.strictEqStr (lit : String) : JVal → Bool
  | JVal.str s => lit == s
  | _ => false

/-- Loose equality `lit == v` against a string literal that is not numeric
(`Number(lit)` is `NaN`): `undefined` and `null` equal only each other, a
boolean is compared as a number and differs from `NaN`, a string is compared
as a string, and an object is first converted to a primitive, which gives
`[object Object]` or raises. -/
def JVal.looseEqStr (lit : String) : JVal → Except JErr Bool
  | JVal.undefined => Except.ok false
  | JVal.null => Except.ok false
  | JVal.bool _ => Except.ok false
  | JVal.str s => Except.ok (lit == s)
  | JVal.obj fields =>
    if Msg.has fields "toString" then
      Except.error (JErr.typeError "Cannot convert object to primitive value")
    else Except.ok (lit == "[object Object]")

/-- Read `v[k]` on any value, for a key that neither `Object.prototype`,
`String.prototype` nor `Boolean.prototype` defines: `undefined` and `null`
raise, a primitive has no such property. -/
def JVal.getProp (v : JVal) (k : String) : Except JErr JVal :=
  match v with
  | JVal.undefined =>
    Except.error (JErr.typeError ("Cannot read property " ++ k ++ " of undefined"))
  | JVal.null =>
    Except.error (JErr.typeError ("Cannot read property " ++ k ++ " of null"))
  | JVal.bool _ => Except.ok JVal.undefined
  | JVal.str _ => Except.ok JVal.undefined
  | JVal.obj fields => Except.ok (Msg.get fields k)

/-- The text `JSON.stringify` writes for one character of a string
(`QuoteJSONString`): the two-character escapes, `\u00xx` for the other
control characters, the character itself otherwise. -/
def jsonEscapeChar (c : Char) : String :=
  let bs := Char.ofNat 92
  let hex := fun (n : Nat) => (Nat.toDigits 16 n).asString
  if c.toNat = 34 then String.mk [bs, Char.ofNat 34]
  else if c.toNat = 92 then String.mk [bs, bs]
  else if c.toNat = 8 then String.mk [bs, Char.ofNat 98]
  else if c.toNat = 12 then String.mk [bs, Char.ofNat 102]
  else if c.toNat = 10 then String.mk [bs, Char.ofNat 110]
  else if c.toNat = 13 then String.mk [bs, Char.ofNat 114]
  else if c.toNat = 9 then String.mk [bs, Char.ofNat 116]
  else if c.toNat < 32 then
    String.mk [bs, Char.ofNat 117] ++ "00" ++ hex (c.toNat / 16) ++ hex (c.toNat % 16)
  else String.mk [c]

/-- The text of `JSON.stringify(s)` for a string `s`. -/
def jsonQuote (s : String) : String :=
  String.mk [Char.ofNat 34] ++ String.join (s.toList.map jsonEscapeChar)
    ++ String.mk [Char.ofNat 34]

/-! ## Numbers and the keepalive option -/

/-- A JavaScript number. Every finite double is a rational, and the code
only tests, truncates and compares numbers, all of which is exact; the sign
of zero is not observed by any of these. -/
inductive JNum where
  | nan : JNum
  | posInf : JNum
  | negInf : JNum
  | fin (q : ℚ) : JNum
  deriving DecidableEq

/-- The value of `getOptions()['keepalive']`: absent, a boolean or a number
(`transport.getOptions() -> {keepalive?: number|boolean}`). -/
inductive KeepAlive where
  | undefined : KeepAlive
  | bool (b : Bool) : KeepAlive
  | num (x : JNum) : KeepAlive
  deriving DecidableEq

/-- The `ToBoolean` conversion: `NaN` and zero are falsy. -/
def KeepAlive.truthy : KeepAlive → Bool
  | KeepAlive.undefined => false
  | KeepAlive.bool b => b
  | KeepAlive.num JNum.nan => false
  | KeepAlive.num JNum.posInf => true
  | KeepAlive.num JNum.negInf => true
  | KeepAlive.num (JNum.fin q) => decide (q ≠ 0)

/-- The `ToNumber` conversion. -/
def KeepAlive.toNumber : KeepAlive → JNum
  | KeepAlive.undefined => JNum.nan
  | KeepAlive.bool b => JNum.fin (if b then 1 else 0)
  | KeepAlive.num x => x

/-- The global `isNaN(value)`: `ToNumber(value)` is `NaN`. -/
def jsIsNaN (value : KeepAlive) : Bool :=
  match value.toNumber with
  | JNum.nan => true
  | _ => false

/-- The global `parseFloat(value)`: the value is converted to a string and
its longest numeric prefix is read back. The strings `undefined`, `true` and
`false` have none; the string of a number reads back as that number. -/
def jsParseFloat : KeepAlive → JNum
  | KeepAlive.undefined => JNum.nan
  | KeepAlive.bool _ => JNum.nan
  | KeepAlive.num x => x

/-- The `ToInt32` conversion behind `x | 0`: `NaN` and the infinities give 0,
a finite number is truncated toward zero and wrapped into the signed 32-bit
range. -/
def JNum.toInt32 : JNum → Int
  | JNum.fin q =>
    let t : Int := if 0 ≤ q.num then q.num / (q.den : Int) else -((-q.num) / (q.den : Int))
    let m : Int := t % 4294967296
    if 2147483648 ≤ m then m - 4294967296 else m
  | _ => 0

/-- Strict equality `n === x` of an integer with a number. -/
def JNum.strictEqInt (n : Int) : JNum → Bool
  | JNum.fin q => decide ((n : ℚ) = q)
  | _ => false

/-- The comparison `x > 0`. -/
def JNum.gtZero : JNum → Bool
  | JNum.nan => false
  | JNum.posInf => true
  | JNum.negInf => false
  | JNum.fin q => decide (0 < q)

/-- The comparison `x < n` for an integer literal `n`. -/
def JNum.ltInt (n : Int) : JNum → Bool
  | JNum.nan => false
  | JNum.posInf => false
  | JNum.negInf => true
  | JNum.fin q => decide (q < (n : ℚ))

/-- Embeds `Session.prototype._isNaturalNumber`. -/
def _isNaturalNumber (value : KeepAlive) : Bool :=
  if jsIsNaN value then false
  else
    let x := jsParseFloat value
    JNum.strictEqInt x.toInt32 x && x.gtZero

/-- The period `_startKeepAlive` assigns to `_keepAlivePeriod` for the option
`keepAlive`. -/
def keepAlivePeriodOf (keepAlive : KeepAlive) : KeepAlive :=
  if _isNaturalNumber keepAlive && keepAlive.toNumber.ltInt 59000 then keepAlive
  else KeepAlive.num (JNum.fin 30000)

/-! ## Collaborators of the session -/

/-- Modelled from the spec: `Plugin` (`src/plugin.js` is not part of the
sources at hand). A capability handle with the handle id the gateway
assigned, the plugin name requested at attach time and the owning session,
kept as that session's id. -/
structure Plugin where
  session : String
  name : JVal
  id : JVal

/-- Modelled from the spec: `Plugin.create(session, name, id)`, the only way
a Plugin is made; `session` is the owner's id. -/
def Plugin.create (session : String) (name : JVal) (id : JVal) : Plugin :=
  { session := session, name := name, id := id }

/-- Modelled from the spec: `plugin.getId()`, the handle id. -/
def Plugin.getId (p : Plugin) : JVal := p.id

/-- Modelled from the spec: `Timer` (`src/timer.js` is not part of the
sources at hand), a restartable periodic callback. `elapsed` counts the
milliseconds of the running period; the callback is due when it reaches
`period`. -/
structure Timer where
  period : KeepAlive
  running : Bool
  elapsed : Nat

/-- Modelled from the spec: `new Timer(callback, period)`; the callback of the
only timer a session makes is `this.send({janus: keepalive})`. -/
def Timer.create (period : KeepAlive) : Timer :=
  { period := period, running := false, elapsed := 0 }

/-- Modelled from the spec: `start()` begins firing at the fixed period. -/
def Timer.start (t : Timer) : Timer := { t with running := true, elapsed := 0 }

/-- Modelled from the spec: `stop()` ends the firing; a no-op when stopped. -/
def Timer.stop (t : Timer) : Timer := { t with running := false }

/-- Modelled from the spec: `reset()` restarts the period without invoking
the callback early. -/
def Timer.reset (t : Timer) : Timer := { t with elapsed := 0 }

/-- The transport, as far as the session reads it: the `keepalive` entry of
`getOptions()`. -/
structure Connection where
  keepalive : KeepAlive

/-- The two resolvers the session registers. Each closes over the session
(the state it runs in) and `onAttach` also over the outcome message. -/
inductive Resolver where
  | onAttach (outcomeMessage : Msg) : Resolver
  | onDestroy : Resolver

/-- Modelled from the spec: `new Transaction(id, resolver)`, one pending
request awaiting one correlated response. -/
structure Transaction where
  id : JVal
  resolver : Resolver

/-- A call the session makes on a collaborator. -/
inductive Effect where
  /-- `this._keepAliveTimer.start()` -/
  | timerStart : Effect
  /-- `this._keepAliveTimer.reset()` -/
  | timerReset : Effect
  /-- `this._keepAliveTimer.stop()` -/
  | timerStop : Effect
  /-- `this._connection.send(message)` -/
  | connectionSend (message : Msg) : Effect
  /-- `this.emit(event)` -/
  | emit (event : String) : Effect
  /-- `plugin.once(event, ...)`, the listener that removes the plugin -/
  | pluginOnce (plugin : Plugin) (event : String) : Effect

/-- A value a call returns or a promise carries. -/
inductive Value where
  | js (v : JVal) : Value
  | plugin (p : Plugin) : Value

/-- What a call produced. The last four are results of collaborators whose
code is not at hand: the call is recorded, its result is left open, and the
session paired with it is the session at the moment of the call, before
anything the callee does. -/
inductive Ret where
  /-- returned a value that is not a promise -/
  | value (v : Value) : Ret
  /-- returned a promise fulfilled with `v` -/
  | fulfilled (v : Value) : Ret
  /-- returned a promise rejected with `e` -/
  | rejected (e : JErr) : Ret
  /-- raised `e` -/
  | threw (e : JErr) : Ret
  /-- the result of `plugin.processOutcomeMessage(message)` -/
  | pluginOutcome (plugin : Plugin) (message : Msg) : Ret
  /-- the result of `plugin.processIncomeMessage(message)` -/
  | pluginIncome (plugin : Plugin) (message : Msg) : Ret
  /-- the result of `Session.prototype.super_.processIncomeMessage(message)` -/
  | superIncome (message : Msg) : Ret
  /-- the result of `this._connection.send(message)` -/
  | connectionSend (message : Msg) : Ret

/-! ## The session -/

/-- The fields of a `Session` object, the transactions it has handed to
`this._transactions.add` (oldest first) and the trace of its calls on
collaborators (oldest first). `connection = none` is `_connection === null`;
`id` is a string (`@param {String} id`). -/
structure Session where
  connection : Option Connection
  id : String
  plugins : List (String × Plugin)
  keepAlivePeriod : Option KeepAlive
  keepAliveTimer : Option Timer
  transactions : List Transaction
  trace : List Effect

/-- The own property `key` of `this._plugins`, `none` when the object has
none. This is what `this._plugins[key]` reads for every key but the names in
`objectPrototypeKeys`: at such a name without an own property the read finds
the member inherited from `Object.prototype`. -/
def pluginsGet : List (String × Plugin) → String → Option Plugin
  | [], _ => none
  | (k0, p) :: rest, k => if k0 = k then some p else pluginsGet rest k

/-- Assign `this._plugins[key] = plugin`: an own property, for every key but
`__proto__`, where the assignment goes to the inherited setter. -/
def pluginsSet : List (String × Plugin) → String → Plugin → List (String × Plugin)
  | [], k, p => [(k, p)]
  | (k0, p0) :: rest, k, p =>
    if k0 = k then (k, p) :: rest else (k0, p0) :: pluginsSet rest k p

/-- Evaluate `delete this._plugins[key]`: the property is gone, the others
stay in order. -/
def pluginsDelete (ps : List (String × Plugin)) (k : String) : List (String × Plugin) :=
  ps.filter (fun e => !(e.1 == k))

/-- Modelled from the spec: `this._transactions.add(transaction)` puts the
transaction into the pending set. -/
def transactionsAdd (ts : List Transaction) (t : Transaction) : List Transaction :=
  ts ++ [t]

namespace Session

/-- Embeds `Session.prototype.getId`. -/
def getId (s : Session) : String := s.id

/-- Embeds `Session.prototype.toString`: `Session` followed by
`JSON.stringify({id: this._id})`. -/
def toString (s : Session) : String :=
  "Session\x7b" ++ jsonQuote "id" ++ ":" ++ jsonQuote s.id ++ "\x7d"

/-- Embeds `Session.prototype.getPlugin` for an id that is a property key
(a string, `@param {String} id`): the Plugin registered under the id, and
`none` when what `this._plugins[id]` reads is no Plugin. That is `undefined`,
except at a name in `objectPrototypeKeys` with no plugin registered, where
the read finds the member inherited from `Object.prototype`. -/
def getPlugin (s : Session) (id : String) : Option Plugin :=
  pluginsGet s.plugins id

/-- Embeds `Session.prototype.hasPlugin`: `!!this.getPlugin(id)`. A Plugin is
an object and so truthy, and so is the member inherited from
`Object.prototype` that the read finds at a name in `objectPrototypeKeys`
(a function, or the prototype itself). -/
def hasPlugin (s : Session) (id : String) : Bool :=
  (s.getPlugin id).isSome || decide (id ∈ objectPrototypeKeys)

/-- Embeds `Session.prototype.addPlugin`. The key is `plugin.getId()`
converted to a property key; when that conversion raises nothing was done. -/
def addPlugin (s : Session) (plugin : Plugin) : Except JErr Session :=
  match plugin.getId.toStr with
  | Except.error e => Except.error e
  | Except.ok key =>
    Except.ok { s with
      plugins := pluginsSet s.plugins key plugin
      trace := s.trace ++ [Effect.pluginOnce plugin "detach"] }

/-- Embeds `Session.prototype.removePlugin` for an id that is a property key
(a string, `@param {String} pluginId`). -/
def removePlugin (s : Session) (pluginId : String) : Session :=
  { s with plugins := pluginsDelete s.plugins pluginId }

/-- Embeds `Session.prototype._destroy`; the promise it returns is fulfilled
with `undefined`. -/
def _destroy (s : Session) : Session × Ret :=
  let s1 : Session :=
    match s.keepAliveTimer with
    | some _ => { s with keepAliveTimer := none, trace := s.trace ++ [Effect.timerStop] }
    | none => s
  ({ s1 with plugins := [], connection := none, trace := s1.trace ++ [Effect.emit "destroy"] },
    Ret.fulfilled (Value.js JVal.undefined))

/-- Embeds `Session.prototype._onTimeout`: `this._destroy().return(incomeMessage)`. -/
def _onTimeout (s : Session) (incomeMessage : Msg) : Session × Ret :=
  match s._destroy with
  | (s1, Ret.fulfilled _) => (s1, Ret.fulfilled (Value.js (JVal.obj incomeMessage)))
  | (s1, r) => (s1, r)

/-- Embeds `Session.prototype._onAttach`: registers the attach transaction
and fulfils with the outcome message. -/
def _onAttach (s : Session) (outcomeMessage : Msg) : Session × Ret :=
  ({ s with
      transactions := transactionsAdd s.transactions
        { id := outcomeMessage.get "transaction", resolver := Resolver.onAttach outcomeMessage } },
    Ret.fulfilled (Value.js (JVal.obj outcomeMessage)))

/-- Embeds `Session.prototype._onDestroy`: registers the destroy transaction
and fulfils with the outcome message. -/
def _onDestroy (s : Session) (outcomeMessage : Msg) : Session × Ret :=
  ({ s with
      transactions := transactionsAdd s.transactions
        { id := outcomeMessage.get "transaction", resolver := Resolver.onDestroy } },
    Ret.fulfilled (Value.js (JVal.obj outcomeMessage)))

/-- The body of the resolver `_onAttach` passes to `new Transaction`, run on
the session as it is when the response arrives. -/
def attachResolver (s : Session) (outcomeMessage : Msg) (response : Msg) : Session × Ret :=
  match JVal.looseEqStr "success" (response.get "janus") with
  | Except.error e => (s, Ret.threw e)
  | Except.ok true =>
    match (response.get "data").getProp "id" with
    | Except.error e => (s, Ret.threw e)
    | Except.ok pluginId =>
      match s.addPlugin (Plugin.create s.id (outcomeMessage.get "plugin") pluginId) with
      | Except.error e => (s, Ret.threw e)
      | Except.ok s1 =>
        match pluginId.toStr with
        | Except.error e => (s1, Ret.threw e)
        | Except.ok key =>
          match s1.getPlugin key with
          | some plugin => (s1, Ret.value (Value.plugin plugin))
          | none => (s1, Ret.value (Value.js JVal.undefined))
  | Except.ok false => (s, Ret.threw (JErr.connectionError response))

/-- The body of the resolver `_onDestroy` passes to `new Transaction`. -/
def destroyResolver (s : Session) (response : Msg) : Session × Ret :=
  match JVal.looseEqStr "success" (response.get "janus") with
  | Except.error e => (s, Ret.threw e)
  | Except.ok true =>
    match s._destroy with
    | (s1, Ret.fulfilled _) => (s1, Ret.fulfilled (Value.js (JVal.obj response)))
    | (s1, r) => (s1, r)
  | Except.ok false => (s, Ret.threw (JErr.connectionError response))

/-- Runs a registered resolver on a response. -/
def runResolver (s : Session) (r : Resolver) (response : Msg) : Session × Ret :=
  match r with
  | Resolver.onAttach outcomeMessage => s.attachResolver outcomeMessage response
  | Resolver.onDestroy => s.destroyResolver response

/-- Modelled from the spec: `transaction.resolve(response)` invokes the
resolver with the response; if the resolver raises, the promise of the
transaction rejects with that error, otherwise it fulfils with what the
resolver returned (a returned promise is followed). -/
def resolveTransaction (s : Session) (t : Transaction) (response : Msg) : Session × Ret :=
  match s.runResolver t.resolver response with
  | (s1, Ret.value v) => (s1, Ret.fulfilled v)
  | (s1, Ret.threw e) => (s1, Ret.rejected e)
  | (s1, r) => (s1, r)

/-- Embeds `Session.prototype.processOutcomeMessage`. Where `hasPlugin` is
true and no Plugin is registered, what `getPlugin` returns is an inherited
member of `Object.prototype`, which has no method `processOutcomeMessage`: the
call raises. -/
def processOutcomeMessage (s : Session) (message : Msg) : Session × Ret :=
  let janusMessage := message.get "janus"
  if JVal.strictEqStr "attach" janusMessage then s._onAttach message
  else if JVal.strictEqStr "destroy" janusMessage then s._onDestroy message
  else
    let pluginId := message.get "handle_id"
    if pluginId.truthy then
      match pluginId.toStr with
      | Except.error e => (s, Ret.threw e)
      | Except.ok key =>
        if s.hasPlugin key then
          match s.getPlugin key with
          | some plugin => (s, Ret.pluginOutcome plugin message)
          | none =>
            (s, Ret.threw (JErr.typeError
              "this.getPlugin(...).processOutcomeMessage is not a function"))
        else (s, Ret.rejected (JErr.error ("Invalid plugin [" ++ key ++ "]")))
    else (s, Ret.fulfilled (Value.js (JVal.obj message)))

/-- Embeds `Session.prototype.processIncomeMessage`. Where `hasPlugin` is
true and no Plugin is registered, what `getPlugin` returns is an inherited
member of `Object.prototype`, which has no method `processIncomeMessage`: the
call raises. -/
def processIncomeMessage (s : Session) (message : Msg) : Session × Ret :=
  let janusMessage := message.get "janus"
  if JVal.strictEqStr "timeout" janusMessage then s._onTimeout message
  else
    let pluginId :=
      if (message.get "handle_id").truthy then message.get "handle_id" else message.get "sender"
    if pluginId.truthy then
      match pluginId.toStr with
      | Except.error e => (s, Ret.threw e)
      | Except.ok key =>
        if s.hasPlugin key then
          match s.getPlugin key with
          | some plugin => (s, Ret.pluginIncome plugin message)
          | none =>
            (s, Ret.threw (JErr.typeError
              "this.getPlugin(...).processIncomeMessage is not a function"))
        else (s, Ret.rejected (JErr.error ("Invalid plugin [" ++ key ++ "]")))
    else (s, Ret.superIncome message)

/-- Embeds `Session.prototype._send`. The result holds the session, the
message object as the call leaves it, and what the call returned. -/
def _send (s : Session) (message : Msg) : Session × Msg × Ret :=
  match s.connection with
  | none =>
    (s, message,
      Ret.rejected (JErr.error ("Can not send message over destroyed " ++ s.toString)))
  | some _ =>
    let stamped := message.set "session_id" (JVal.str s.id)
    let s1 : Session :=
      match s.keepAliveTimer with
      | some timer =>
        { s with keepAliveTimer := some timer.reset, trace := s.trace ++ [Effect.timerReset] }
      | none => s
    ({ s1 with trace := s1.trace ++ [Effect.connectionSend stamped] }, stamped,
      Ret.connectionSend stamped)

/-- Embeds `Session.prototype._startKeepAlive`; reading the options of a
cleared connection raises. -/
def _startKeepAlive (s : Session) : Except JErr Session :=
  match s.connection with
  | none => Except.error (JErr.typeError "Cannot read property getOptions of null")
  | some connection =>
    let period := keepAlivePeriodOf connection.keepalive
    Except.ok { s with
      keepAlivePeriod := some period
      keepAliveTimer := some (Timer.create period).start
      trace := s.trace ++ [Effect.timerStart] }

/-- Embeds the constructor `Session(connection, id)` and `Session.create`. -/
def create (connection : Connection) (id : String) : Session :=
  let s : Session :=
    { connection := some connection, id := id, plugins := [], keepAlivePeriod := none,
      keepAliveTimer := none, transactions := [], trace := [] }
  if connection.keepalive.truthy then
    match s._startKeepAlive with
    | Except.ok s1 => s1
    | Except.error _ => s
  else s

end Session

/-! ## Sample states -/

/-- An active session `s1` made with `keepalive: 10000`, holding the plugin
`h0`. -/
def sampleSession : Session :=
  { Session.create { keepalive := KeepAlive.num (JNum.fin 10000) } "s1" with
    plugins := [("h0", Plugin.create "s1" (JVal.str "echo") (JVal.str "h0"))] }

/-- The session `sampleSession` after `_destroy`. -/
def destroyedSession : Session := sampleSession._destroy.1

/-! ## The inherited gateway -/

/-- Two transaction ids are the same string (`id: unique string per
outstanding request`). -/
def JVal.sameStr : JVal → JVal → Bool
  | JVal.str a, JVal.str b => a == b
  | _, _ => false

/-- Modelled from the spec: the pending transaction a message is matched to,
by its transaction id. -/
def findTransaction : List Transaction → JVal → Option Transaction
  | [], _ => none
  | t :: rest, id => if JVal.sameStr t.id id then some t else findTransaction rest id

/-- Modelled from the spec: the pending set without the transactions of that
id. -/
def removeTransaction (ts : List Transaction) (id : JVal) : List Transaction :=
  ts.filter (fun t => !(JVal.sameStr t.id id))

/-- Modelled from the spec: `TransactionGateway.prototype.processIncomeMessage`
run with `this` bound to the session: a message that carries the id of a
pending transaction resolves that transaction, which leaves the pending set;
any other message is returned unchanged. -/
def Session.inheritedProcessIncomeMessage (s : Session) (message : Msg) : Session × Ret :=
  match findTransaction s.transactions (message.get "transaction") with
  | some t =>
    Session.resolveTransaction
      { s with transactions := removeTransaction s.transactions (message.get "transaction") }
      t message
  | none => (s, Ret.fulfilled (Value.js (JVal.obj message)))

/-- Embeds the call `Session.prototype.super_.processIncomeMessage(message)`
of line 139. `util.inherits(Session, TransactionGateway)` defines `super_` on
the constructor `Session`, where line 15 reads it, and `session.js` gives
`Session.prototype` methods only; the read of `Session.prototype.super_`
therefore falls through to the prototype chain of `TransactionGateway`, whose
code is not at hand. `inherited` is the handler `processIncomeMessage` of
whatever object that chain holds under the name `super_`, and `none` when it
holds nothing, as under `util.inherits`: reading a property of `undefined`
raises. The handler is called as a method of that object, without
`.call(this, ...)`, so it is given the message and not the session. -/
def Session.superProcessIncomeMessage (inherited : Option (Msg → Ret)) (s : Session)
    (message : Msg) : Session × Ret :=
  match inherited with
  | none =>
    (s, Ret.threw (JErr.typeError "Cannot read property processIncomeMessage of undefined"))
  | some handler => (s, handler message)

/-- Embeds `Session.prototype.processIncomeMessage` with the call of line 139
carried out. -/
def Session.processIncomeMessageWith (inherited : Option (Msg → Ret)) (s : Session)
    (message : Msg) : Session × Ret :=
  match s.processIncomeMessage message with
  | (s1, Ret.superIncome m) => s1.superProcessIncomeMessage inherited m
  | r => r

/-- Modelled from the spec: `TransactionGateway.prototype.send(message)`
stamps the freshly generated id `transaction` on the message, passes it
through the outcome hook of the session, which registers the transaction of
an attach or destroy request, and transmits it through `_send`. -/
def Session.send (s : Session) (transaction : String) (message : Msg) : Session × Ret :=
  match s.processOutcomeMessage (message.set "transaction" (JVal.str transaction)) with
  | (s1, Ret.fulfilled _) =>
    ((s1._send (message.set "transaction" (JVal.str transaction))).1,
      (s1._send (message.set "transaction" (JVal.str transaction))).2.2)
  | (s1, r) => (s1, r)

/-- Embeds `Session.prototype.attachPlugin`; `transaction` is the id `send`
generates. -/
def Session.attachPlugin (s : Session) (transaction : String) (name : JVal) : Session × Ret :=
  s.send transaction [("janus", JVal.str "attach"), ("plugin", name)]

/-- Embeds `Session.prototype.destroy`; `transaction` is the id `send`
generates. -/
def Session.destroy (s : Session) (transaction : String) : Session × Ret :=
  s.send transaction [("janus", JVal.str "destroy")]

/-! ## Sequences of operations -/

/-- An operation on a session: a call of one of its methods, or the
resolution of the pending transaction at `index` with a response. -/
inductive Op where
  | attachPlugin (name : JVal) (transaction : String) : Op
  | destroy (transaction : String) : Op
  | addPlugin (plugin : Plugin) : Op
  | removePlugin (pluginId : String) : Op
  | processOutcomeMessage (message : Msg) : Op
  | processIncomeMessage (message : Msg) : Op
  | resolve (index : Nat) (response : Msg) : Op
  | send (message : Msg) : Op
  | startKeepAlive : Op
  | timeout (message : Msg) : Op

/-- The session after one operation. An operation that raises leaves the
session as it was when it raised. -/
def Session.step (s : Session) : Op → Session
  | Op.attachPlugin name transaction => (s.attachPlugin transaction name).1
  | Op.destroy transaction => (s.destroy transaction).1
  | Op.addPlugin plugin =>
    match s.addPlugin plugin with
    | Except.ok s1 => s1
    | Except.error _ => s
  | Op.removePlugin pluginId => s.removePlugin pluginId
  | Op.processOutcomeMessage message => (s.processOutcomeMessage message).1
  | Op.processIncomeMessage message => (s.processIncomeMessage message).1
  | Op.resolve index response =>
    match s.transactions.get? index with
    | some t =>
      (Session.resolveTransaction
        { s with transactions := s.transactions.eraseIdx index } t response).1
    | none => s
  | Op.send message => (s._send message).1
  | Op.startKeepAlive =>
    match s._startKeepAlive with
    | Except.ok s1 => s1
    | Except.error _ => s
  | Op.timeout message => (s._onTimeout message).1

/-- The session after a sequence of operations. -/
def Session.run (s : Session) (ops : List Op) : Session :=
  ops.foldl Session.step s

/-- The call is `this._connection.send(message)`. -/
def Effect.isSend : Effect → Bool
  | Effect.connectionSend _ => true
  | _ => false

/-- The call is `this._keepAliveTimer.start()`. -/
def Effect.isTimerStart : Effect → Bool
  | Effect.timerStart => true
  | _ => false

/-- The operation puts a plugin into the mapping: `addPlugin`, or the
resolution of an attach transaction with a response whose `janus` is
`success`. -/
def Op.registers (s : Session) : Op → Bool
  | Op.addPlugin _ => true
  | Op.resolve index response =>
    match s.transactions.get? index with
    | some t =>
      match t.resolver, JVal.looseEqStr "success" (response.get "janus") with
      | Resolver.onAttach _, Except.ok true => true
      | _, _ => false
    | none => false
  | _ => false

/-- No operation of the sequence, run from `s`, registers a plugin. -/
def Session.registersNone : Session → List Op → Bool
  | _, [] => true
  | s, op :: rest => !(Op.registers s op) && Session.registersNone (s.step op) rest

/-- Every Plugin in the mapping is owned by the session:
`plugin.sessionId == session.id`. -/
def Session.ownsPlugins (s : Session) : Prop :=
  ∀ e ∈ s.plugins, e.2.session = s.id

/-- A session with an attach request still pending, and then destroyed. -/
def destroyedWhilePending : Session :=
  (sampleSession.processOutcomeMessage
    [("janus", JVal.str "attach"), ("plugin", JVal.str "echo"),
      ("transaction", JVal.str "t1")]).1._destroy.1

/-- The session `sampleSession` with a destroy request pending under `t2`. -/
def pendingSession : Session :=
  (sampleSession.processOutcomeMessage
    [("janus", JVal.str "destroy"), ("transaction", JVal.str "t2")]).1

/-- The number of messages the session has handed to the transport. -/
def Session.sends (s : Session) : Nat := s.trace.countP Effect.isSend

/-- The number of keepalive timers the session has started. -/
def Session.timerStarts (s : Session) : Nat := s.trace.countP Effect.isTimerStart

/-- The session is destroyed: the connection is cleared and no keepalive
timer is held. -/
def Session.inert (s : Session) : Prop :=
  s.connection = none ∧ s.keepAliveTimer = none

/-! ## Media plugins (`src/webrtc/media-entity-plugin.js`, `media-stream-plugin.js`) -/

/-- An entity id as the plugins receive and keep it: a string or a number
(`@param {string|number} id`), `undefined` when the argument is omitted,
`null` when no entity is tracked. -/
inductive EVal where
  | undefined : EVal
  | null : EVal
  | str (s : String) : EVal
  | num (x : JNum) : EVal
  deriving DecidableEq

/-- The `ToBoolean` conversion: the empty string, zero and `NaN` are falsy. -/
def EVal.truthy : EVal → Bool
  | EVal.undefined => false
  | EVal.null => false
  | EVal.str s => !(s == "")
  | EVal.num JNum.nan => false
  | EVal.num JNum.posInf => true
  | EVal.num JNum.negInf => true
  | EVal.num (JNum.fin q) => decide (q ≠ 0)

/-- Strict equality `a === b`: same type and same value; `NaN` equals
nothing. -/
def EVal.strictEq : EVal → EVal → Bool
  | EVal.undefined, EVal.undefined => true
  | EVal.null, EVal.null => true
  | EVal.str a, EVal.str b => a == b
  | EVal.num (JNum.fin a), EVal.num (JNum.fin b) => decide (a = b)
  | EVal.num JNum.posInf, EVal.num JNum.posInf => true
  | EVal.num JNum.negInf, EVal.num JNum.negInf => true
  | _, _ => false

/-- Modelled from the spec: `PluginResponse` (`src/plugin-response.js` is not
part of the sources at hand) wraps the response message of the gateway. -/
structure PluginResponse where
  response : Msg

/-- Modelled from the spec: `response.get(name)` reads a field of the
response message (`jsep`: the offer or answer session description). -/
def PluginResponse.get (r : PluginResponse) (name : String) : JVal :=
  r.response.get name

/-- An error a plugin request fails with: its `message` and its `response`
(`undefined` when it carries none). -/
structure PluginError where
  message : String
  response : Option PluginResponse

/-- What the promise of `this.sendWithTransaction(...)` settles to. -/
inductive Reply where
  | fulfilled (response : PluginResponse) : Reply
  | rejected (error : PluginError) : Reply

/-- A request handed to `sendWithTransaction` as `body`: the object literal
of the code and, when the body is made by `Helpers.extend(literal, options)`,
the options (`Helpers` is not part of the sources at hand). -/
structure Request where
  literal : List (String × EVal)
  options : Option JVal

/-- What a call of a media plugin returned. -/
inductive MRet where
  /-- a promise fulfilled with the response, `none` being `undefined` -/
  | fulfilled (response : Option PluginResponse) : MRet
  /-- a promise rejected with the error the request failed with -/
  | rejected (error : PluginError) : MRet
  /-- a promise rejected with the error its handler raised -/
  | raised (error : JErr) : MRet
  /-- the promise of `plugin._startMediaStreaming(jsep, answerOptions).return(response)` -/
  | afterStreaming (jsep : JVal) (answerOptions : JVal) (response : PluginResponse) : MRet

/-- The state of a `MediaEntityPlugin`: `_currentEntityId` and the requests
it has handed to `sendWithTransaction`, oldest first. -/
structure MediaEntityPlugin where
  currentEntityId : EVal
  requests : List Request

/-- A `MediaStreamPlugin` adds methods, no state. -/
abbrev MediaStreamPlugin := MediaEntityPlugin

/-- The first index at which `pattern` occurs in `text` at or after position
`start`, `none` when it does not occur. -/
def indexOfFrom (pattern : List Char) : List Char → Nat → Option Nat
  | [], start => if pattern = [] then some start else none
  | c :: rest, start =>
    if pattern.isPrefixOf (c :: rest) then some start else indexOfFrom pattern rest (start + 1)

/-- The method `text.indexOf(pattern)`: the first index of an occurrence, `-1`
when there is none. Indices count characters; whether the index is 0, positive
or `-1` does not depend on the unit. -/
def jsIndexOf (text pattern : String) : Int :=
  match indexOfFrom pattern.toList text.toList 0 with
  | some i => (i : Int)
  | none => -1

namespace MediaEntityPlugin

/-- Embeds the constructor: `this._currentEntityId = null`. -/
def create : MediaEntityPlugin := { currentEntityId := EVal.null, requests := [] }

/-- Embeds `MediaEntityPlugin.prototype.hasCurrentEntity`; `id` is
`undefined` when the argument is omitted. -/
def hasCurrentEntity (p : MediaEntityPlugin) (id : EVal) : Bool :=
  if id.truthy then EVal.strictEq id p.currentEntityId
  else p.currentEntityId.truthy

/-- Embeds `MediaEntityPlugin.prototype.setCurrentEntity`. -/
def setCurrentEntity (p : MediaEntityPlugin) (id : EVal) : MediaEntityPlugin :=
  { p with currentEntityId := id }

/-- Embeds `MediaEntityPlugin.prototype.resetCurrentEntity`. -/
def resetCurrentEntity (p : MediaEntityPlugin) : MediaEntityPlugin :=
  { p with currentEntityId := EVal.null }

/-- Embeds `MediaEntityPlugin.prototype._create`; `reply` is what the promise
of `sendWithTransaction` settles to. -/
def _create (p : MediaEntityPlugin) (options : JVal) (reply : Reply) :
    MediaEntityPlugin × MRet :=
  let p1 : MediaEntityPlugin :=
    { p with requests := p.requests ++
        [{ literal := [("request", EVal.str "create")], options := some options }] }
  match reply with
  | Reply.fulfilled response => (p1, MRet.fulfilled (some response))
  | Reply.rejected error =>
    if jsIndexOf error.message "already exists" > 0 then (p1, MRet.fulfilled error.response)
    else (p1, MRet.rejected error)

end MediaEntityPlugin

namespace MediaStreamPlugin

/-- Embeds `MediaStreamPlugin.prototype._watch`. -/
def _watch (p : MediaStreamPlugin) (id : EVal) (watchOptions answerOptions : JVal)
    (reply : Reply) : MediaStreamPlugin × MRet :=
  let p1 : MediaStreamPlugin :=
    { p with requests := p.requests ++
        [{ literal := [("request", EVal.str "watch"), ("id", id)],
           options := some watchOptions }] }
  match reply with
  | Reply.rejected error => (p1, MRet.rejected error)
  | Reply.fulfilled response =>
    let jsep := response.get "jsep"
    if !jsep.truthy then
      (p1, MRet.raised (JErr.error "Expect offer response on watch request"))
    else
      match jsep.getProp "type" with
      | Except.error e => (p1, MRet.raised e)
      | Except.ok type =>
        match JVal.looseEqStr "offer" type with
        | Except.error e => (p1, MRet.raised e)
        | Except.ok false =>
          (p1, MRet.raised (JErr.error "Expect offer response on watch request"))
        | Except.ok true =>
          (MediaEntityPlugin.setCurrentEntity p1 id,
            MRet.afterStreaming jsep answerOptions response)

/-- Embeds `MediaStreamPlugin.prototype._stop`. -/
def _stop (p : MediaStreamPlugin) (reply : Reply) : MediaStreamPlugin × MRet :=
  let p1 : MediaStreamPlugin :=
    { p with requests := p.requests ++
        [{ literal := [("request", EVal.str "stop")], options := none }] }
  match reply with
  | Reply.rejected error => (p1, MRet.rejected error)
  | Reply.fulfilled response =>
    (MediaEntityPlugin.resetCurrentEntity p1, MRet.fulfilled (some response))

/-- Embeds `MediaStreamPlugin.prototype._switch`. -/
def _switch (p : MediaStreamPlugin) (id : EVal) (options : JVal) (reply : Reply) :
    MediaStreamPlugin × MRet :=
  let p1 : MediaStreamPlugin :=
    { p with requests := p.requests ++
        [{ literal := [("request", EVal.str "switch"), ("id", id)], options := some options }] }
  match reply with
  | Reply.rejected error => (p1, MRet.rejected error)
  | Reply.fulfilled response =>
    (MediaEntityPlugin.setCurrentEntity p1 id, MRet.fulfilled (some response))

/-- Embeds `MediaStreamPlugin.prototype.connect`; `reply` is what the promise
of the request settles to, when one is sent. -/
def connect (p : MediaStreamPlugin) (id : EVal) (watchOptions answerOptions : JVal)
    (reply : Reply) : MediaStreamPlugin × MRet :=
  if MediaEntityPlugin.hasCurrentEntity p id then
    (p, MRet.fulfilled (some { response := [] }))
  else if MediaEntityPlugin.hasCurrentEntity p EVal.undefined then
    _switch p id watchOptions reply
  else _watch p id watchOptions answerOptions reply

end MediaStreamPlugin

/-- A stream plugin that tracks the entity 5. -/
def watchingFive : MediaStreamPlugin :=
  { currentEntityId := EVal.num (JNum.fin 5), requests := [] }

/-! ## The call of a plugin carried out -/

/-- What a call of `plugin.processIncomeMessage(message)` did, as far as the
session can tell: whether the plugin emitted `detach` during the call, and
what the call returned. -/
structure PluginRun where
  detached : Bool
  result : Ret

/-- The call `plugin.once(event, ...)` registered the `detach` listener of
lines 95-97 on a plugin whose id has the property key `key`. -/
def Effect.registersDetach (key : String) : Effect → Bool
  | Effect.pluginOnce plugin event =>
    match plugin.getId.toStr with
    | Except.ok k => k == key && event == "detach"
    | Except.error _ => false
  | _ => false

/-- The key the `detach` listener of the session removes when the plugin
emits `detach`: `plugin.getId()` as a property key, when `addPlugin` has
registered the listener on this plugin; `none` when it has not. -/
def Session.detachKey (s : Session) (plugin : Plugin) : Option String :=
  match plugin.getId.toStr with
  | Except.ok key => if s.trace.any (Effect.registersDetach key) then some key else none
  | Except.error _ => none

/-- The session after a call of a handler of `plugin`: an emitted `detach`
runs the listener `addPlugin` registered (lines 95-97),
`this.removePlugin(plugin.getId())`. -/
def Session.afterPluginRun (s : Session) (plugin : Plugin) (run : PluginRun) : Session :=
  match run.detached, s.detachKey plugin with
  | true, some key => s.removePlugin key
  | _, _ => s

/-- Embeds `Session.prototype.processIncomeMessage` with the call of line 134
carried out. `handler` stands for `plugin.processIncomeMessage`, whose code is
not at hand. -/
def Session.processIncomeMessageVia (handler : Plugin → Msg → PluginRun) (s : Session)
    (message : Msg) : Session × Ret :=
  match s.processIncomeMessage message with
  | (s1, Ret.pluginIncome plugin m) =>
    (s1.afterPluginRun plugin (handler plugin m), (handler plugin m).result)
  | r => r

/-- A handler that detaches its plugin on the message `detached` of the
gateway and fulfils with the message. -/
def detachingHandler (_plugin : Plugin) (message : Msg) : PluginRun :=
  { detached := JVal.strictEqStr "detached" (message.get "janus"),
    result := Ret.fulfilled (Value.js (JVal.obj message)) }

/-- A session `s1` to which `addPlugin` has added the plugin `h1`. -/
def attachedSession : Session :=
  (Session.create { keepalive := KeepAlive.undefined } "s1").step
    (Op.addPlugin (Plugin.create "s1" (JVal.str "echo") (JVal.str "h1")))

end Janus

namespace Janus

/-! ## Lemmas on objects -/

theorem Msg.get_set_same (m : Msg) (k : String) (v : JVal) :
    Msg.get (Msg.set m k v) k = v := by
  induction m with
  | nil => simp [Msg.set, Msg.get]
  | cons e rest ih =>
    obtain ⟨k0, v0⟩ := e
    by_cases h : k0 = k
    · simp [Msg.set, Msg.get, h]
    · simp [Msg.set, Msg.get, h, ih]

theorem Msg.get_set_other (m : Msg) (k k1 : String) (v : JVal) (hk : k1 ≠ k) :
    Msg.get (Msg.set m k v) k1 = Msg.get m k1 := by
  induction m with
  | nil => simp [Msg.set, Msg.get, Ne.symm hk]
  | cons e rest ih =>
    obtain ⟨k0, v0⟩ := e
    by_cases h : k0 = k
    · subst h
      simp [Msg.set, Msg.get, Ne.symm hk]
    · by_cases h1 : k0 = k1
      · subst h1
        simp [Msg.set, Msg.get, hk]
      · simp [Msg.set, Msg.get, h, h1, ih]

theorem Msg.has_set_other (m : Msg) (k k1 : String) (v : JVal) (hk : k1 ≠ k) :
    Msg.has (Msg.set m k v) k1 = Msg.has m k1 := by
  induction m with
  | nil => simp [Msg.set, Msg.has, Ne.symm hk]
  | cons e rest ih =>
    obtain ⟨k0, v0⟩ := e
    by_cases h : k0 = k
    · subst h
      simp [Msg.set, Msg.has, Ne.symm hk]
    · by_cases h1 : k0 = k1
      · subst h1
        simp [Msg.set, Msg.has, hk]
      · simp [Msg.set, Msg.has, h, h1, ih]

theorem Msg.keys_set (m : Msg) (k : String) (v : JVal) :
    Msg.keys (Msg.set m k v) = if Msg.has m k then Msg.keys m else Msg.keys m ++ [k] := by
  induction m with
  | nil => simp [Msg.set, Msg.has, Msg.keys]
  | cons e rest ih =>
    obtain ⟨k0, v0⟩ := e
    by_cases h : k0 = k
    · simp [Msg.set, Msg.has, Msg.keys, h]
    · simp only [Msg.keys] at ih
      by_cases hh : Msg.has rest k = true
      · simp [Msg.set, Msg.has, Msg.keys, h, hh] at ih ⊢
        exact ih
      · simp [Msg.set, Msg.has, Msg.keys, h, hh] at ih ⊢
        exact ih

theorem pluginsGet_set_same (ps : List (String × Plugin)) (k : String) (p : Plugin) :
    pluginsGet (pluginsSet ps k p) k = some p := by
  induction ps with
  | nil => simp [pluginsSet, pluginsGet]
  | cons e rest ih =>
    obtain ⟨k0, p0⟩ := e
    by_cases h : k0 = k
    · simp [pluginsSet, pluginsGet, h]
    · simp [pluginsSet, pluginsGet, h, ih]

theorem pluginsGet_delete_same (ps : List (String × Plugin)) (k : String) :
    pluginsGet (pluginsDelete ps k) k = none := by
  induction ps with
  | nil => simp [pluginsDelete, pluginsGet]
  | cons e rest ih =>
    obtain ⟨k0, p0⟩ := e
    by_cases h : k0 = k
    · simpa [pluginsDelete, List.filter_cons, h] using ih
    · simp only [pluginsDelete] at ih
      simp [pluginsDelete, List.filter_cons, h, pluginsGet, ih]

theorem pluginsGet_delete_other (ps : List (String × Plugin)) (k k1 : String) (hk : k1 ≠ k) :
    pluginsGet (pluginsDelete ps k) k1 = pluginsGet ps k1 := by
  induction ps with
  | nil => simp [pluginsDelete, pluginsGet]
  | cons e rest ih =>
    obtain ⟨k0, p0⟩ := e
    simp only [pluginsDelete] at ih
    by_cases h : k0 = k
    · subst h
      simp [pluginsDelete, List.filter_cons, pluginsGet, Ne.symm hk, ih]
    · by_cases h1 : k0 = k1
      · subst h1
        simp [pluginsDelete, List.filter_cons, pluginsGet, hk]
      · simp [pluginsDelete, List.filter_cons, pluginsGet, h, h1, ih]

theorem pluginsDelete_idem (ps : List (String × Plugin)) (k : String) :
    pluginsDelete (pluginsDelete ps k) k = pluginsDelete ps k := by
  simp [pluginsDelete, List.filter_filter]

/-! ## Attach -/

theorem looseEqStr_success (v : JVal) (hne : v ≠ JVal.str "success")
    (hobj : ∀ fields, v = JVal.obj fields → Msg.has fields "toString" = false) :
    JVal.looseEqStr "success" v = Except.ok false := by
  cases v with
  | undefined => rfl
  | null => rfl
  | bool b => rfl
  | str t =>
    have h : ¬ ("success" = t) := fun h => hne (by rw [h])
    simp [JVal.looseEqStr, h]
  | obj fields =>
    have h := hobj fields rfl
    simp [JVal.looseEqStr, h]

/-- C1. When `processOutcomeMessage` receives an outcome message whose verb
is `attach`, it registers one transaction under the transaction id of the
message and fulfils with the message. Resolving that transaction, in whatever
state the session then is, with a response whose `janus` is `success` and
whose `data.id` is `h` (with property key `key`, which is `h` itself for a
string) fulfils with the Plugin of id `h`, of the requested name and owned by
this session; afterwards `hasPlugin` is true and `getPlugin` is that Plugin. -/
theorem attach_success_registers_plugin (s : Session) (message response : Msg)
    (h : JVal) (key : String)
    (hverb : message.get "janus" = JVal.str "attach")
    (hsuccess : response.get "janus" = JVal.str "success")
    (hdata : (response.get "data").getProp "id" = Except.ok h)
    (hkey : h.toStr = Except.ok key) :
    ∃ t : Transaction,
      s.processOutcomeMessage message =
        ({ s with transactions := s.transactions ++ [t] },
          Ret.fulfilled (Value.js (JVal.obj message))) ∧
      t.id = message.get "transaction" ∧
      ∀ later : Session, later.id = s.id →
        (later.resolveTransaction t response).2 =
          Ret.fulfilled (Value.plugin
            { session := s.id, name := message.get "plugin", id := h }) ∧
        (later.resolveTransaction t response).1.hasPlugin key = true ∧
        (later.resolveTransaction t response).1.getPlugin key =
          some { session := s.id, name := message.get "plugin", id := h } := by
  refine ⟨{ id := message.get "transaction", resolver := Resolver.onAttach message }, ?_, rfl, ?_⟩
  · simp [Session.processOutcomeMessage, hverb, JVal.strictEqStr, Session._onAttach,
      transactionsAdd]
  · intro later hid
    simp [Session.resolveTransaction, Session.runResolver, Session.attachResolver, hsuccess,
      JVal.looseEqStr, hdata, Session.addPlugin, Plugin.create, Plugin.getId, hkey,
      Session.getPlugin, Session.hasPlugin, pluginsGet_set_same, hid]

/-- C1, at the input of the specification: attach `echo`, handle `h1`. -/
theorem attach_success_registers_plugin_witness :
    ∃ t : Transaction,
      (Session.create { keepalive := KeepAlive.undefined } "s1").processOutcomeMessage
          [("janus", JVal.str "attach"), ("plugin", JVal.str "echo"),
            ("transaction", JVal.str "t1")] =
        ({ Session.create { keepalive := KeepAlive.undefined } "s1" with
            transactions := [] ++ [t] },
          Ret.fulfilled (Value.js (JVal.obj
            [("janus", JVal.str "attach"), ("plugin", JVal.str "echo"),
              ("transaction", JVal.str "t1")]))) ∧
      t.id = JVal.str "t1" ∧
      ∀ later : Session, later.id = "s1" →
        (later.resolveTransaction t
            [("janus", JVal.str "success"), ("data", JVal.obj [("id", JVal.str "h1")])]).2 =
          Ret.fulfilled (Value.plugin
            { session := "s1", name := JVal.str "echo", id := JVal.str "h1" }) ∧
        (later.resolveTransaction t
            [("janus", JVal.str "success"),
              ("data", JVal.obj [("id", JVal.str "h1")])]).1.hasPlugin "h1" = true ∧
        (later.resolveTransaction t
            [("janus", JVal.str "success"),
              ("data", JVal.obj [("id", JVal.str "h1")])]).1.getPlugin "h1" =
          some { session := "s1", name := JVal.str "echo", id := JVal.str "h1" } :=
  attach_success_registers_plugin (Session.create { keepalive := KeepAlive.undefined } "s1")
    [("janus", JVal.str "attach"), ("plugin", JVal.str "echo"), ("transaction", JVal.str "t1")]
    [("janus", JVal.str "success"), ("data", JVal.obj [("id", JVal.str "h1")])]
    (JVal.str "h1") "h1" rfl rfl rfl rfl

/-- C2. For every session and every response whose `janus` verb is not
`success` (any value but the string `success`; an object must be one that
converts to a primitive), the attach resolver raises the ConnectionError that
carries the response, the attach transaction rejects with it, and the session,
its plugins mapping included, is exactly what it was. -/
theorem attach_failure_rejects (s : Session) (t : Transaction) (outcomeMessage response : Msg)
    (hattach : t.resolver = Resolver.onAttach outcomeMessage)
    (hverb : response.get "janus" ≠ JVal.str "success")
    (hobj : ∀ fields, response.get "janus" = JVal.obj fields →
      Msg.has fields "toString" = false) :
    s.attachResolver outcomeMessage response =
        (s, Ret.threw (JErr.connectionError response)) ∧
      s.resolveTransaction t response = (s, Ret.rejected (JErr.connectionError response)) ∧
      (s.resolveTransaction t response).1.plugins = s.plugins := by
  have h := looseEqStr_success (response.get "janus") hverb hobj
  simp [Session.resolveTransaction, Session.runResolver, hattach, Session.attachResolver, h]

/-- C2, at the input of the specification: an `error` response to an attach
on a session that holds a plugin. -/
theorem attach_failure_rejects_witness :
    ({ Session.create { keepalive := KeepAlive.undefined } "s1" with
          plugins := [("h0", Plugin.create "s1" (JVal.str "echo") (JVal.str "h0"))] }
        : Session).attachResolver
        [("janus", JVal.str "attach"), ("plugin", JVal.str "echo")]
        [("janus", JVal.str "error"), ("error", JVal.obj [("reason", JVal.str "No such plugin")])] =
      (({ Session.create { keepalive := KeepAlive.undefined } "s1" with
          plugins := [("h0", Plugin.create "s1" (JVal.str "echo") (JVal.str "h0"))] } : Session),
        Ret.threw (JErr.connectionError
          [("janus", JVal.str "error"),
            ("error", JVal.obj [("reason", JVal.str "No such plugin")])])) :=
  (attach_failure_rejects
    { Session.create { keepalive := KeepAlive.undefined } "s1" with
      plugins := [("h0", Plugin.create "s1" (JVal.str "echo") (JVal.str "h0"))] }
    { id := JVal.str "t1",
      resolver := Resolver.onAttach [("janus", JVal.str "attach"), ("plugin", JVal.str "echo")] }
    [("janus", JVal.str "attach"), ("plugin", JVal.str "echo")]
    [("janus", JVal.str "error"), ("error", JVal.obj [("reason", JVal.str "No such plugin")])]
    rfl (by simp [Msg.get]) (by simp [Msg.get])).1

/-! ## Destroy and timeout -/

/-- The effects of `_destroy` on a session. -/
theorem destroy_state (s : Session) :
    s._destroy.1.plugins = [] ∧ s._destroy.1.keepAliveTimer = none ∧
      s._destroy.1.connection = none ∧
      s._destroy.1.trace =
        s.trace ++ (if s.keepAliveTimer.isSome then [Effect.timerStop] else []) ++
          [Effect.emit "destroy"] ∧
      s._destroy.2 = Ret.fulfilled (Value.js JVal.undefined) := by
  cases hk : s.keepAliveTimer <;> simp [Session._destroy, hk]

/-- C3. For every session, with any plugins and with or without a keepalive
timer: an outcome message whose verb is `destroy` registers one transaction
under its transaction id; resolving that transaction, in whatever state the
session then is, with a response whose `janus` is `success` leaves the plugins
mapping empty, the keepalive timer stopped (when one was held) and no longer
held, the connection cleared, and fulfils with the response. -/
theorem destroy_success_tears_down (s : Session) (message response : Msg)
    (hverb : message.get "janus" = JVal.str "destroy")
    (hsuccess : response.get "janus" = JVal.str "success") :
    ∃ t : Transaction,
      s.processOutcomeMessage message =
        ({ s with transactions := s.transactions ++ [t] },
          Ret.fulfilled (Value.js (JVal.obj message))) ∧
      t.id = message.get "transaction" ∧
      ∀ later : Session,
        (later.resolveTransaction t response).2 =
          Ret.fulfilled (Value.js (JVal.obj response)) ∧
        (later.resolveTransaction t response).1.plugins = [] ∧
        (later.resolveTransaction t response).1.keepAliveTimer = none ∧
        (later.resolveTransaction t response).1.connection = none ∧
        (later.resolveTransaction t response).1.trace =
          later.trace ++ (if later.keepAliveTimer.isSome then [Effect.timerStop] else []) ++
            [Effect.emit "destroy"] := by
  refine ⟨{ id := message.get "transaction", resolver := Resolver.onDestroy }, ?_, rfl, ?_⟩
  · simp [Session.processOutcomeMessage, hverb, JVal.strictEqStr, Session._onDestroy,
      transactionsAdd]
  · intro later
    have hd := destroy_state later
    have h2 : later._destroy = (later._destroy.1, Ret.fulfilled (Value.js JVal.undefined)) := by
      rw [← hd.2.2.2.2]
    simp only [Session.resolveTransaction, Session.runResolver, Session.destroyResolver,
      hsuccess, JVal.looseEqStr]
    rw [h2]
    simp [hd]

/-- C3, at the input of the specification: `destroy` then `success` on a
session with a plugin and a keepalive timer. -/
theorem destroy_success_tears_down_witness :
    ∃ t : Transaction,
      sampleSession.processOutcomeMessage
          [("janus", JVal.str "destroy"), ("transaction", JVal.str "t2")] =
        ({ sampleSession with transactions := sampleSession.transactions ++ [t] },
          Ret.fulfilled (Value.js (JVal.obj
            [("janus", JVal.str "destroy"), ("transaction", JVal.str "t2")]))) ∧
      t.id = JVal.str "t2" ∧
      ∀ later : Session,
        (later.resolveTransaction t [("janus", JVal.str "success")]).2 =
          Ret.fulfilled (Value.js (JVal.obj [("janus", JVal.str "success")])) ∧
        (later.resolveTransaction t [("janus", JVal.str "success")]).1.plugins = [] ∧
        (later.resolveTransaction t [("janus", JVal.str "success")]).1.keepAliveTimer = none ∧
        (later.resolveTransaction t [("janus", JVal.str "success")]).1.connection = none ∧
        (later.resolveTransaction t [("janus", JVal.str "success")]).1.trace =
          later.trace ++ (if later.keepAliveTimer.isSome then [Effect.timerStop] else []) ++
            [Effect.emit "destroy"] :=
  destroy_success_tears_down sampleSession
    [("janus", JVal.str "destroy"), ("transaction", JVal.str "t2")]
    [("janus", JVal.str "success")] rfl rfl

/-- C4. For every session and every income message whose verb is `timeout`,
whatever else it carries, `processIncomeMessage` fulfils with that message and
leaves the session as `_destroy` does: plugins empty, the keepalive timer
stopped (when one was held) and no longer held, the connection cleared. The
state is the one a destroy transaction resolved with a `success` response
leaves. -/
theorem timeout_tears_down (s : Session) (message : Msg)
    (hverb : message.get "janus" = JVal.str "timeout") :
    s.processIncomeMessage message =
        (s._destroy.1, Ret.fulfilled (Value.js (JVal.obj message))) ∧
      (s.processIncomeMessage message).1.plugins = [] ∧
      (s.processIncomeMessage message).1.keepAliveTimer = none ∧
      (s.processIncomeMessage message).1.connection = none ∧
      (s.processIncomeMessage message).1.trace =
        s.trace ++ (if s.keepAliveTimer.isSome then [Effect.timerStop] else []) ++
          [Effect.emit "destroy"] ∧
      ∀ (t : Transaction) (response : Msg), t.resolver = Resolver.onDestroy →
        response.get "janus" = JVal.str "success" →
        (s.processIncomeMessage message).1 = (s.resolveTransaction t response).1 := by
  have hd := destroy_state s
  have h2 : s._destroy = (s._destroy.1, Ret.fulfilled (Value.js JVal.undefined)) := by
    rw [← hd.2.2.2.2]
  have h3 : s.processIncomeMessage message =
      (s._destroy.1, Ret.fulfilled (Value.js (JVal.obj message))) := by
    simp only [Session.processIncomeMessage, hverb, JVal.strictEqStr, Session._onTimeout]
    rw [h2]
    simp
  refine ⟨h3, ?_⟩
  rw [h3]
  refine ⟨hd.1, hd.2.1, hd.2.2.1, hd.2.2.2.1, ?_⟩
  intro t response ht hsuccess
  simp only [Session.resolveTransaction, Session.runResolver, ht, Session.destroyResolver,
    hsuccess, JVal.looseEqStr]
  rw [h2]
  simp

/-- C4, at a timeout message that also names an unregistered plugin. -/
theorem timeout_tears_down_witness :
    sampleSession.processIncomeMessage
        [("janus", JVal.str "timeout"), ("sender", JVal.str "hX")] =
      (destroyedSession, Ret.fulfilled (Value.js (JVal.obj
        [("janus", JVal.str "timeout"), ("sender", JVal.str "hX")]))) :=
  (timeout_tears_down sampleSession
    [("janus", JVal.str "timeout"), ("sender", JVal.str "hX")] rfl).1

/-! ## Routing by handle id -/

/-- C5 as stated fails: no plugin is registered under `hX`, yet an outcome
message with verb `attach` and an income message with verb `timeout` that
carry `handle_id: hX` are fulfilled, not rejected, and an empty `handle_id`
is treated as absent. -/
theorem invalid_plugin_counterexample :
    sampleSession.hasPlugin "hX" = false ∧
      (sampleSession.processOutcomeMessage
          [("janus", JVal.str "attach"), ("handle_id", JVal.str "hX")]).2 =
        Ret.fulfilled (Value.js (JVal.obj
          [("janus", JVal.str "attach"), ("handle_id", JVal.str "hX")])) ∧
      (sampleSession.processOutcomeMessage
          [("janus", JVal.str "attach"), ("handle_id", JVal.str "hX")]).2 ≠
        Ret.rejected (JErr.error "Invalid plugin [hX]") ∧
      (sampleSession.processIncomeMessage
          [("janus", JVal.str "timeout"), ("handle_id", JVal.str "hX")]).2 =
        Ret.fulfilled (Value.js (JVal.obj
          [("janus", JVal.str "timeout"), ("handle_id", JVal.str "hX")])) ∧
      (sampleSession.processIncomeMessage
          [("janus", JVal.str "timeout"), ("handle_id", JVal.str "hX")]).2 ≠
        Ret.rejected (JErr.error "Invalid plugin [hX]") ∧
      sampleSession.hasPlugin "" = false ∧
      (sampleSession.processOutcomeMessage
          [("janus", JVal.str "message"), ("handle_id", JVal.str "")]).2 =
        Ret.fulfilled (Value.js (JVal.obj
          [("janus", JVal.str "message"), ("handle_id", JVal.str "")])) := by
  refine ⟨rfl, rfl, ?_, rfl, ?_, rfl, rfl⟩
  · intro h
    have h2 : (sampleSession.processOutcomeMessage
        [("janus", JVal.str "attach"), ("handle_id", JVal.str "hX")]).2 =
        Ret.fulfilled (Value.js (JVal.obj
          [("janus", JVal.str "attach"), ("handle_id", JVal.str "hX")])) := rfl
    rw [h2] at h
    cases h
  · intro h
    have h2 : (sampleSession.processIncomeMessage
        [("janus", JVal.str "timeout"), ("handle_id", JVal.str "hX")]).2 =
        Ret.fulfilled (Value.js (JVal.obj
          [("janus", JVal.str "timeout"), ("handle_id", JVal.str "hX")])) := rfl
    rw [h2] at h
    cases h

/-- C5, amended. For every session and every message that carries a
non-empty string `handle_id` `hX` that names no member of `Object.prototype`
and under which no plugin is registered: `processOutcomeMessage`, when the
verb is neither `attach` nor `destroy`, and `processIncomeMessage`, when the
verb is not `timeout`, return a promise rejected with the error
`Invalid plugin [hX]`, raise nothing and leave the session as it was. The
statement says nothing of a name such as `constructor`. -/
theorem invalid_plugin_rejects (s : Session) (message : Msg) (hX : String)
    (hid : message.get "handle_id" = JVal.str hX) (hne : hX ≠ "")
    (hown : hX ∉ objectPrototypeKeys)
    (hnone : s.getPlugin hX = none) :
    (message.get "janus" ≠ JVal.str "attach" → message.get "janus" ≠ JVal.str "destroy" →
        s.processOutcomeMessage message =
          (s, Ret.rejected (JErr.error ("Invalid plugin [" ++ hX ++ "]")))) ∧
      (message.get "janus" ≠ JVal.str "timeout" →
        s.processIncomeMessage message =
          (s, Ret.rejected (JErr.error ("Invalid plugin [" ++ hX ++ "]")))) := by
  have hstrict : ∀ (lit : String) (v : JVal), v ≠ JVal.str lit →
      JVal.strictEqStr lit v = false := by
    intro lit v hv
    cases v with
    | str t =>
      have : ¬ (lit = t) := fun h => hv (by rw [h])
      simp [JVal.strictEqStr, this]
    | _ => rfl
  have hno : s.hasPlugin hX = false := by
    simp [Session.hasPlugin, hnone, hown]
  constructor
  · intro ha hd
    simp [Session.processOutcomeMessage, hstrict _ _ ha, hstrict _ _ hd, hid, JVal.truthy, hne,
      JVal.toStr, hno]
  · intro ht
    simp [Session.processIncomeMessage, hstrict _ _ ht, hid, JVal.truthy, hne, JVal.toStr, hno]

/-- C5 amended, at `handle_id: hX` on a session that holds only `h0`. -/
theorem invalid_plugin_rejects_witness :
    sampleSession.processOutcomeMessage
          [("janus", JVal.str "message"), ("handle_id", JVal.str "hX")] =
        (sampleSession, Ret.rejected (JErr.error ("Invalid plugin [" ++ "hX" ++ "]"))) ∧
      sampleSession.processIncomeMessage
          [("janus", JVal.str "event"), ("handle_id", JVal.str "hX")] =
        (sampleSession, Ret.rejected (JErr.error ("Invalid plugin [" ++ "hX" ++ "]"))) :=
  ⟨(invalid_plugin_rejects sampleSession
      [("janus", JVal.str "message"), ("handle_id", JVal.str "hX")] "hX" rfl (by decide)
      (by decide) rfl).1
      (by simp [Msg.get]) (by simp [Msg.get]),
    (invalid_plugin_rejects sampleSession
      [("janus", JVal.str "event"), ("handle_id", JVal.str "hX")] "hX" rfl (by decide)
      (by decide) rfl).2
      (by simp [Msg.get])⟩

/-- At the name of a member of `Object.prototype`: no plugin is registered
under `constructor`, yet `hasPlugin` is true, since the read finds the
inherited member; a message that carries it as `handle_id` makes the session
call a method the member does not have, which raises; and `removePlugin`
changes none of this. -/
theorem prototype_key_raises :
    sampleSession.getPlugin "constructor" = none ∧
      sampleSession.hasPlugin "constructor" = true ∧
      sampleSession.processOutcomeMessage
          [("janus", JVal.str "message"), ("handle_id", JVal.str "constructor")] =
        (sampleSession,
          Ret.threw (JErr.typeError
            "this.getPlugin(...).processOutcomeMessage is not a function")) ∧
      sampleSession.processIncomeMessage
          [("janus", JVal.str "event"), ("sender", JVal.str "constructor")] =
        (sampleSession,
          Ret.threw (JErr.typeError
            "this.getPlugin(...).processIncomeMessage is not a function")) ∧
      (sampleSession.removePlugin "constructor").hasPlugin "constructor" = true := by
  refine ⟨rfl, rfl, rfl, rfl, rfl⟩

/-! ## Sending -/

/-- C6. For every active session and every message passed to `_send`,
whatever `session_id` it carried: the message handed to the transport (it is
the message object itself, as the call leaves it) has `session_id` equal to
the id of the session, every other field reads as before, and the fields keep
their names and order, `session_id` being added last when it was absent. -/
theorem send_stamps_session_id (s : Session) (c : Connection) (message : Msg)
    (hactive : s.connection = some c) :
    (s._send message).2.2 = Ret.connectionSend (s._send message).2.1 ∧
      (s._send message).1.trace.getLast? = some (Effect.connectionSend (s._send message).2.1) ∧
      (s._send message).2.1.get "session_id" = JVal.str s.id ∧
      (∀ k : String, k ≠ "session_id" →
        (s._send message).2.1.get k = message.get k ∧
        Msg.has (s._send message).2.1 k = Msg.has message k) ∧
      Msg.keys (s._send message).2.1 =
        (if Msg.has message "session_id" then Msg.keys message
          else Msg.keys message ++ ["session_id"]) := by
  have h : s._send message =
      ({ (match s.keepAliveTimer with
            | some timer =>
              { s with keepAliveTimer := some timer.reset,
                       trace := s.trace ++ [Effect.timerReset] }
            | none => s) with
          trace := (match s.keepAliveTimer with
            | some timer =>
              ({ s with keepAliveTimer := some timer.reset,
                        trace := s.trace ++ [Effect.timerReset] } : Session)
            | none => s).trace ++ [Effect.connectionSend (message.set "session_id" (JVal.str s.id))] },
        message.set "session_id" (JVal.str s.id),
        Ret.connectionSend (message.set "session_id" (JVal.str s.id))) := by
    simp [Session._send, hactive]
  rw [h]
  refine ⟨rfl, by simp, Msg.get_set_same _ _ _, ?_, Msg.keys_set _ _ _⟩
  intro k hk
  exact ⟨Msg.get_set_other _ _ _ _ hk, Msg.has_set_other _ _ _ _ hk⟩

/-- C6, at a message that carries the session id of another session. -/
theorem send_stamps_session_id_witness :
    (sampleSession._send
        [("janus", JVal.str "message"), ("session_id", JVal.str "other"),
          ("body", JVal.obj [])]).2.1 =
      [("janus", JVal.str "message"), ("session_id", JVal.str "s1"), ("body", JVal.obj [])] ∧
    (sampleSession._send
        [("janus", JVal.str "message"), ("session_id", JVal.str "other"),
          ("body", JVal.obj [])]).2.1.get "session_id" = JVal.str sampleSession.id :=
  ⟨rfl, (send_stamps_session_id sampleSession
    { keepalive := KeepAlive.num (JNum.fin 10000) }
    [("janus", JVal.str "message"), ("session_id", JVal.str "other"), ("body", JVal.obj [])]
    rfl).2.2.1⟩

/-- C7. For every session whose connection has been cleared and every
message, `_send` returns at once a promise rejected with the error whose text
is `Can not send message over destroyed Session{"id":<id>}`, `<id>` being the
JSON text of the session id; the session, its trace of calls included, is
unchanged, so the transport is not called, and the message is unchanged. -/
theorem send_on_destroyed_rejects (s : Session) (message : Msg)
    (hcleared : s.connection = none) :
    s._send message =
      (s, message,
        Ret.rejected (JErr.error
          ("Can not send message over destroyed Session\x7b\"id\":" ++ jsonQuote s.id
            ++ "\x7d"))) := by
  have hq : jsonQuote "id" = "\"id\"" := by decide
  have hlit : "Can not send message over destroyed Session\x7b\"id\":" =
      "Can not send message over destroyed " ++ ("Session\x7b" ++ ("\"id\"" ++ ":")) := by
    decide
  simp only [Session._send, hcleared, Session.toString, hq]
  rw [hlit]
  simp only [String.append_assoc]

/-- C7, at the destroyed sample session: the text names the session `s1`. -/
theorem send_on_destroyed_rejects_witness :
    destroyedSession._send [("janus", JVal.str "keepalive")] =
      (destroyedSession, [("janus", JVal.str "keepalive")],
        Ret.rejected (JErr.error
          "Can not send message over destroyed Session\x7b\"id\":\"s1\"\x7d")) :=
  (send_on_destroyed_rejects destroyedSession [("janus", JVal.str "keepalive")] rfl).trans rfl

/-- C9. For every session and every message passed to `_send`, the keepalive
message of the timer included: when the session is active and holds a
keepalive timer, the call adds to the trace exactly one `reset` of the timer
followed by the hand-over of the stamped message to the transport, and the
timer held afterwards is the one before, reset: its period has just begun
anew. When the connection has been cleared the session is unchanged: nothing
is reset and nothing is sent. -/
theorem send_resets_keepalive_timer (s : Session) (message : Msg) :
    (∀ (c : Connection) (timer : Timer), s.connection = some c →
        s.keepAliveTimer = some timer →
        (s._send message).1.trace =
            s.trace ++ [Effect.timerReset, Effect.connectionSend (s._send message).2.1] ∧
          (s._send message).1.keepAliveTimer = some timer.reset ∧
          timer.reset.elapsed = 0 ∧ timer.reset.period = timer.period ∧
          timer.reset.running = timer.running) ∧
      (s.connection = none → (s._send message).1 = s) := by
  constructor
  · intro c timer hc ht
    simp [Session._send, hc, ht, Timer.reset]
  · intro hc
    simp [Session._send, hc]

/-- C9, at the sample session (keepalive 10000) and at its destroyed state. -/
theorem send_resets_keepalive_timer_witness :
    (sampleSession._send [("janus", JVal.str "keepalive")]).1.trace =
        sampleSession.trace ++ [Effect.timerReset,
          Effect.connectionSend (sampleSession._send [("janus", JVal.str "keepalive")]).2.1] ∧
      (destroyedSession._send [("janus", JVal.str "keepalive")]).1 = destroyedSession :=
  ⟨((send_resets_keepalive_timer sampleSession [("janus", JVal.str "keepalive")]).1
      { keepalive := KeepAlive.num (JNum.fin 10000) }
      { period := KeepAlive.num (JNum.fin 10000), running := true, elapsed := 0 }
      rfl rfl).1,
    (send_resets_keepalive_timer destroyedSession [("janus", JVal.str "keepalive")]).2 rfl⟩

/-! ## Removing a plugin -/

/-- C10. For every session and every plugin id, `removePlugin` is total and
calling it twice leaves the session that calling it once leaves. In the
mapping it leaves, no entry is under the id and the entries under every other
id are those it held, in their order; a mapping that held only this id is
empty; nothing but the plugins mapping changes. For an id that names no
member of `Object.prototype`, `hasPlugin(id)` is then false and
`getPlugin(id)` is `undefined`; every other id reads as before. -/
theorem removePlugin_twice (s : Session) (id : String) :
    (s.removePlugin id).removePlugin id = s.removePlugin id ∧
      (∀ e : String × Plugin,
        e ∈ (s.removePlugin id).plugins ↔ (e ∈ s.plugins ∧ e.1 ≠ id)) ∧
      List.Sublist (s.removePlugin id).plugins s.plugins ∧
      (∀ p : Plugin, s.plugins = [(id, p)] →
        ((s.removePlugin id).removePlugin id).plugins = []) ∧
      s.removePlugin id = { s with plugins := (s.removePlugin id).plugins } ∧
      (id ∉ objectPrototypeKeys →
        (s.removePlugin id).hasPlugin id = false ∧ (s.removePlugin id).getPlugin id = none) ∧
      (∀ k : String, k ≠ id → (s.removePlugin id).getPlugin k = s.getPlugin k) := by
  refine ⟨?_, ?_, ?_, ?_, rfl, ?_, ?_⟩
  · simp [Session.removePlugin, pluginsDelete_idem]
  · intro e
    simp [Session.removePlugin, pluginsDelete, List.mem_filter]
  · simp only [Session.removePlugin, pluginsDelete]
    exact List.filter_sublist _
  · intro p hp
    simp [Session.removePlugin, hp, pluginsDelete]
  · intro hown
    constructor
    · simp [Session.removePlugin, Session.hasPlugin, Session.getPlugin, pluginsGet_delete_same,
        hown]
    · simp [Session.removePlugin, Session.getPlugin, pluginsGet_delete_same]
  · intro k hk
    simp [Session.removePlugin, Session.getPlugin, pluginsGet_delete_other _ _ _ hk]

/-- C10, on the sample session: removing `h0` twice leaves no plugin, and
`hasPlugin` is false for `h0` afterwards. -/
theorem removePlugin_twice_witness :
    ((sampleSession.removePlugin "h0").removePlugin "h0").plugins = [] ∧
      (sampleSession.removePlugin "h0").hasPlugin "h0" = false :=
  ⟨(removePlugin_twice sampleSession "h0").2.2.2.1
      (Plugin.create "s1" (JVal.str "echo") (JVal.str "h0")) rfl,
    ((removePlugin_twice sampleSession "h0").2.2.2.2.2.1 (by decide)).1⟩

/-! ## The keepalive period -/

theorem toInt32_intCast (n : Int) (h0 : 0 < n) (h1 : n < 59000) :
    (JNum.fin (n : ℚ)).toInt32 = n := by
  have hnum : ((n : ℚ)).num = n := Rat.num_intCast n
  have hden : ((n : ℚ)).den = 1 := Rat.den_intCast n
  simp only [JNum.toInt32, hnum, hden]
  have hpos : 0 ≤ n := le_of_lt h0
  simp only [hpos, if_true, Nat.cast_one, Int.ediv_one]
  have hm : n % 4294967296 = n := Int.emod_eq_of_lt hpos (by omega)
  rw [hm]
  have : ¬ (2147483648 ≤ n) := by omega
  simp [this]

theorem keepAlive_kept_iff (k : KeepAlive) :
    (_isNaturalNumber k = true ∧ k.toNumber.ltInt 59000 = true) ↔
      ∃ n : Int, 0 < n ∧ n < 59000 ∧ k = KeepAlive.num (JNum.fin (n : ℚ)) := by
  constructor
  · rintro ⟨hnat, hlt⟩
    cases k with
    | undefined => simp [_isNaturalNumber, jsIsNaN, KeepAlive.toNumber] at hnat
    | bool b =>
      simp [_isNaturalNumber, jsIsNaN, KeepAlive.toNumber, jsParseFloat, JNum.strictEqInt] at hnat
    | num x =>
      cases x with
      | nan => simp [_isNaturalNumber, jsIsNaN, KeepAlive.toNumber] at hnat
      | posInf =>
        simp [_isNaturalNumber, jsIsNaN, KeepAlive.toNumber, jsParseFloat,
          JNum.strictEqInt] at hnat
      | negInf =>
        simp [_isNaturalNumber, jsIsNaN, KeepAlive.toNumber, jsParseFloat,
          JNum.strictEqInt] at hnat
      | fin q =>
        simp only [_isNaturalNumber, jsIsNaN, KeepAlive.toNumber, jsParseFloat,
          JNum.strictEqInt, JNum.gtZero, Bool.and_eq_true, decide_eq_true_eq, Bool.false_eq_true,
          if_false] at hnat
        simp only [KeepAlive.toNumber, JNum.ltInt, decide_eq_true_eq] at hlt
        obtain ⟨heq, hpos⟩ := hnat
        refine ⟨(JNum.fin q).toInt32, ?_, ?_, ?_⟩
        · rw [← heq] at hpos
          exact_mod_cast hpos
        · rw [← heq] at hlt
          exact_mod_cast hlt
        · rw [heq]
  · rintro ⟨n, h0, h1, rfl⟩
    have hi := toInt32_intCast n h0 h1
    have hq0 : (0 : ℚ) < (n : ℚ) := by exact_mod_cast h0
    have hq1 : (n : ℚ) < ((59000 : Int) : ℚ) := by exact_mod_cast h1
    simp [_isNaturalNumber, jsIsNaN, KeepAlive.toNumber, jsParseFloat, JNum.strictEqInt,
      JNum.gtZero, JNum.ltInt, hi, hq0]
    exact_mod_cast h1

theorem keepAlivePeriodOf_natural (k : KeepAlive) :
    ∃ n : Int, 0 < n ∧ n < 59000 ∧ keepAlivePeriodOf k = KeepAlive.num (JNum.fin (n : ℚ)) := by
  by_cases h : _isNaturalNumber k = true ∧ k.toNumber.ltInt 59000 = true
  · obtain ⟨n, h0, h1, hk⟩ := (keepAlive_kept_iff k).1 h
    refine ⟨n, h0, h1, ?_⟩
    rw [← hk]
    simp [keepAlivePeriodOf, h.1, h.2]
  · refine ⟨30000, by decide, by decide, ?_⟩
    have h2 : (_isNaturalNumber k && k.toNumber.ltInt 59000) = false := by
      rcases Bool.eq_false_or_eq_true (_isNaturalNumber k) with h1 | h1
      · rcases Bool.eq_false_or_eq_true (k.toNumber.ltInt 59000) with h3 | h3
        · exact absurd ⟨h1, h3⟩ h
        · simp [h3]
      · simp [h1]
    simp [keepAlivePeriodOf, h2]

/-- C8. For every value of the `keepalive` option with which the constructor
starts keepalive (every truthy boolean or number), the period `_startKeepAlive`
chooses, and gives to the timer it starts, is the option itself when the
option is a positive integer strictly below 59000, and 30000 otherwise; so it
is always a positive integer below 59000. -/
theorem keepalive_period (c : Connection) (id : String)
    (hstarted : c.keepalive.truthy = true) :
    (Session.create c id).keepAlivePeriod = some (keepAlivePeriodOf c.keepalive) ∧
      (Session.create c id).keepAliveTimer =
        some { period := keepAlivePeriodOf c.keepalive, running := true, elapsed := 0 } ∧
      ((∃ n : Int, 0 < n ∧ n < 59000 ∧ c.keepalive = KeepAlive.num (JNum.fin (n : ℚ))) →
        keepAlivePeriodOf c.keepalive = c.keepalive) ∧
      ((¬ ∃ n : Int, 0 < n ∧ n < 59000 ∧ c.keepalive = KeepAlive.num (JNum.fin (n : ℚ))) →
        keepAlivePeriodOf c.keepalive = KeepAlive.num (JNum.fin 30000)) ∧
      ∃ n : Int, 0 < n ∧ n < 59000 ∧
        keepAlivePeriodOf c.keepalive = KeepAlive.num (JNum.fin (n : ℚ)) := by
  refine ⟨?_, ?_, ?_, ?_, keepAlivePeriodOf_natural c.keepalive⟩
  · simp [Session.create, hstarted, Session._startKeepAlive]
  · simp [Session.create, hstarted, Session._startKeepAlive, Timer.create, Timer.start]
  · intro h
    have h2 := (keepAlive_kept_iff c.keepalive).2 h
    simp [keepAlivePeriodOf, h2.1, h2.2]
  · intro h
    have h2 : ¬ (_isNaturalNumber c.keepalive = true ∧ c.keepalive.toNumber.ltInt 59000 = true) :=
      fun h3 => h ((keepAlive_kept_iff c.keepalive).1 h3)
    have h4 : (_isNaturalNumber c.keepalive && c.keepalive.toNumber.ltInt 59000) = false := by
      rcases Bool.eq_false_or_eq_true (_isNaturalNumber c.keepalive) with h1 | h1
      · rcases Bool.eq_false_or_eq_true (c.keepalive.toNumber.ltInt 59000) with h3 | h3
        · exact absurd ⟨h1, h3⟩ h2
        · simp [h3]
      · simp [h1]
    simp [keepAlivePeriodOf, h4]

/-- C8, at the values the specification names: 10000 is kept; `true`, 59000,
one half and a negative number give 30000. -/
theorem keepalive_period_witness :
    (Session.create { keepalive := KeepAlive.num (JNum.fin 10000) } "s1").keepAlivePeriod =
        some (KeepAlive.num (JNum.fin 10000)) ∧
      (Session.create { keepalive := KeepAlive.bool true } "s1").keepAlivePeriod =
        some (KeepAlive.num (JNum.fin 30000)) ∧
      (Session.create { keepalive := KeepAlive.num (JNum.fin 59000) } "s1").keepAlivePeriod =
        some (KeepAlive.num (JNum.fin 30000)) ∧
      (Session.create { keepalive := KeepAlive.num (JNum.fin (1 / 2)) } "s1").keepAlivePeriod =
        some (KeepAlive.num (JNum.fin 30000)) ∧
      (Session.create { keepalive := KeepAlive.num (JNum.fin (-3)) } "s1").keepAlivePeriod =
        some (KeepAlive.num (JNum.fin 30000)) :=
  ⟨(keepalive_period { keepalive := KeepAlive.num (JNum.fin 10000) } "s1" rfl).1.trans
      (by decide),
    (keepalive_period { keepalive := KeepAlive.bool true } "s1" rfl).1.trans (by decide),
    (keepalive_period { keepalive := KeepAlive.num (JNum.fin 59000) } "s1" rfl).1.trans
      (by decide),
    (keepalive_period { keepalive := KeepAlive.num (JNum.fin (1 / 2)) } "s1"
      (by with_unfolding_all decide)).1.trans
      (congrArg some
        ((keepalive_period { keepalive := KeepAlive.num (JNum.fin (1 / 2)) } "s1"
          (by with_unfolding_all decide)).2.2.2.1
          (by
            rintro ⟨n, _, _, h⟩
            have hq : (1 / 2 : ℚ) = (n : ℚ) := by
              injection h with h1
              injection h1
            have h2 : (2 : ℚ) * (n : ℚ) = 1 := by rw [← hq]; norm_num
            have h3 : 2 * n = 1 := by exact_mod_cast h2
            omega))),
    (keepalive_period { keepalive := KeepAlive.num (JNum.fin (-3)) } "s1" rfl).1.trans
      (by decide)⟩

/-! ## The inherited income handler -/

/-- C11. The code at a failing input: `pendingSession` holds a destroy
transaction pending under `t2`, and the income message is the `success`
response to it, with neither `handle_id` nor `sender`. The session reaches the
call of line 139; with `Session.prototype.super_` undefined that call raises a
`TypeError`, and whatever the prototype chain holds under `super_` the session
and its pending transaction are left as they were. The inherited handler run
on this session resolves the transaction instead: it fulfils with the response
and the session is destroyed. -/
theorem super_call_misses_pending_transaction :
    pendingSession.processIncomeMessage
        [("janus", JVal.str "success"), ("transaction", JVal.str "t2")] =
      (pendingSession,
        Ret.superIncome [("janus", JVal.str "success"), ("transaction", JVal.str "t2")]) ∧
    pendingSession.processIncomeMessageWith none
        [("janus", JVal.str "success"), ("transaction", JVal.str "t2")] =
      (pendingSession,
        Ret.threw (JErr.typeError "Cannot read property processIncomeMessage of undefined")) ∧
    (∀ inherited : Option (Msg → Ret),
      (pendingSession.processIncomeMessageWith inherited
        [("janus", JVal.str "success"), ("transaction", JVal.str "t2")]).1 = pendingSession) ∧
    (pendingSession.inheritedProcessIncomeMessage
        [("janus", JVal.str "success"), ("transaction", JVal.str "t2")]).2 =
      Ret.fulfilled (Value.js (JVal.obj
        [("janus", JVal.str "success"), ("transaction", JVal.str "t2")])) ∧
    (pendingSession.inheritedProcessIncomeMessage
        [("janus", JVal.str "success"), ("transaction", JVal.str "t2")]).1.transactions = [] ∧
    (pendingSession.inheritedProcessIncomeMessage
        [("janus", JVal.str "success"), ("transaction", JVal.str "t2")]).1.connection = none := by
  refine ⟨rfl, rfl, ?_, rfl, rfl, rfl⟩
  intro inherited
  cases inherited <;> rfl

/-! ## Destroyed sessions -/

theorem destroy_frame (s : Session) :
    s._destroy.1.inert ∧ s._destroy.1.sends = s.sends ∧
      s._destroy.1.timerStarts = s.timerStarts ∧ s._destroy.1.plugins = [] ∧
      s._destroy.1.id = s.id ∧ s._destroy.1.transactions = s.transactions := by
  cases hk : s.keepAliveTimer <;>
    simp [Session._destroy, hk, Session.inert, Session.sends, Session.timerStarts,
      Effect.isSend, Effect.isTimerStart, List.countP_append]

theorem onTimeout_state (s : Session) (message : Msg) :
    (s._onTimeout message).1 = s._destroy.1 := by
  cases hk : s.keepAliveTimer <;> simp [Session._onTimeout, Session._destroy, hk]

theorem processOutcomeMessage_frame (s : Session) (message : Msg) :
    (s.processOutcomeMessage message).1.connection = s.connection ∧
      (s.processOutcomeMessage message).1.keepAliveTimer = s.keepAliveTimer ∧
      (s.processOutcomeMessage message).1.trace = s.trace ∧
      (s.processOutcomeMessage message).1.plugins = s.plugins ∧
      (s.processOutcomeMessage message).1.id = s.id := by
  unfold Session.processOutcomeMessage
  simp only [Session._onAttach, Session._onDestroy]
  repeat' split
  all_goals simp

theorem processIncomeMessage_state (s : Session) (message : Msg) :
    (s.processIncomeMessage message).1 = s ∨
      (s.processIncomeMessage message).1 = s._destroy.1 := by
  unfold Session.processIncomeMessage
  by_cases h : JVal.strictEqStr "timeout" (message.get "janus") = true
  · right
    simp [h, onTimeout_state]
  · left
    have h2 : JVal.strictEqStr "timeout" (message.get "janus") = false := by
      simpa using h
    simp only [h2]
    repeat' split
    all_goals first | rfl | simp_all

theorem attachResolver_state (s : Session) (outcomeMessage response : Msg) :
    (s.attachResolver outcomeMessage response).1 = s ∨
      (JVal.looseEqStr "success" (response.get "janus") = Except.ok true ∧
        ∃ (p : Plugin) (key : String), p.session = s.id ∧
          (s.attachResolver outcomeMessage response).1 =
            { s with plugins := pluginsSet s.plugins key p,
                     trace := s.trace ++ [Effect.pluginOnce p "detach"] }) := by
  unfold Session.attachResolver
  cases hl : JVal.looseEqStr "success" (response.get "janus") with
  | error e => left; rfl
  | ok b =>
    cases b with
    | false => left; rfl
    | true =>
      cases hd : (response.get "data").getProp "id" with
      | error e => left; rfl
      | ok pluginId =>
        cases hk : pluginId.toStr with
        | error e =>
          left
          simp [Session.addPlugin, Plugin.create, Plugin.getId, hk]
        | ok key =>
          right
          refine ⟨rfl, Plugin.create s.id (outcomeMessage.get "plugin") pluginId, key, rfl, ?_⟩
          simp [Session.addPlugin, Plugin.create, Plugin.getId, hk, Session.getPlugin,
            pluginsGet_set_same]

theorem destroyResolver_state (s : Session) (response : Msg) :
    (s.destroyResolver response).1 = s ∨ (s.destroyResolver response).1 = s._destroy.1 := by
  unfold Session.destroyResolver
  cases hl : JVal.looseEqStr "success" (response.get "janus") with
  | error e => left; rfl
  | ok b =>
    cases b with
    | false => left; rfl
    | true =>
      right
      cases hk : s.keepAliveTimer <;> simp [Session._destroy, hk]

theorem resolveTransaction_fst (s : Session) (t : Transaction) (response : Msg) :
    (s.resolveTransaction t response).1 = (s.runResolver t.resolver response).1 := by
  unfold Session.resolveTransaction
  split <;> simp_all

theorem send_inert (s : Session) (message : Msg) (h : s.connection = none) :
    s._send message =
      (s, message,
        Ret.rejected (JErr.error ("Can not send message over destroyed " ++ s.toString))) := by
  simp [Session._send, h]

theorem gatewaySend_state (s : Session) (transaction : String) (message : Msg)
    (h : s.connection = none) :
    (s.send transaction message).1 =
      (s.processOutcomeMessage (message.set "transaction" (JVal.str transaction))).1 := by
  have hc := (processOutcomeMessage_frame s
    (message.set "transaction" (JVal.str transaction))).1
  unfold Session.send
  split
  · rename_i s1 v heq
    have h1 : (s.processOutcomeMessage (message.set "transaction" (JVal.str transaction))).1
        = s1 := by rw [heq]
    rw [h1] at hc
    simp [send_inert s1 _ (hc.trans h), h1]
  · rename_i s1 r hne heq
    rw [heq]

theorem inert_of_frame (s s1 : Session) (h : s.inert) (hc : s1.connection = s.connection)
    (hk : s1.keepAliveTimer = s.keepAliveTimer) (ht : s1.trace = s.trace) :
    s1.inert ∧ s1.sends = s.sends ∧ s1.timerStarts = s.timerStarts := by
  refine ⟨⟨hc.trans h.1, hk.trans h.2⟩, ?_, ?_⟩
  · simp [Session.sends, ht]
  · simp [Session.timerStarts, ht]

theorem inert_of_destroy (s : Session) :
    s._destroy.1.inert ∧ s._destroy.1.sends = s.sends ∧
      s._destroy.1.timerStarts = s.timerStarts :=
  ⟨(destroy_frame s).1, (destroy_frame s).2.1, (destroy_frame s).2.2.1⟩

theorem runResolver_inert (s : Session) (r : Resolver) (response : Msg) (h : s.inert) :
    (s.runResolver r response).1.inert ∧ (s.runResolver r response).1.sends = s.sends ∧
      (s.runResolver r response).1.timerStarts = s.timerStarts := by
  cases r with
  | onAttach outcomeMessage =>
    simp only [Session.runResolver]
    rcases attachResolver_state s outcomeMessage response with h1 | ⟨_, p, key, _, h1⟩
    · rw [h1]
      exact ⟨h, rfl, rfl⟩
    · rw [h1]
      refine ⟨h, ?_, ?_⟩
      · simp [Session.sends, List.countP_append, Effect.isSend]
      · simp [Session.timerStarts, List.countP_append, Effect.isTimerStart]
  | onDestroy =>
    simp only [Session.runResolver]
    rcases destroyResolver_state s response with h1 | h1
    · rw [h1]
      exact ⟨h, rfl, rfl⟩
    · rw [h1]
      exact inert_of_destroy s

theorem step_inert (s : Session) (op : Op) (h : s.inert) :
    (s.step op).inert ∧ (s.step op).sends = s.sends ∧
      (s.step op).timerStarts = s.timerStarts := by
  cases op with
  | attachPlugin name transaction =>
    simp only [Session.step, Session.attachPlugin, gatewaySend_state _ _ _ h.1]
    have hf := processOutcomeMessage_frame s
      (Msg.set [("janus", JVal.str "attach"), ("plugin", name)] "transaction"
        (JVal.str transaction))
    exact inert_of_frame s _ h hf.1 hf.2.1 hf.2.2.1
  | destroy transaction =>
    simp only [Session.step, Session.destroy, gatewaySend_state _ _ _ h.1]
    have hf := processOutcomeMessage_frame s
      (Msg.set [("janus", JVal.str "destroy")] "transaction" (JVal.str transaction))
    exact inert_of_frame s _ h hf.1 hf.2.1 hf.2.2.1
  | addPlugin plugin =>
    simp only [Session.step, Session.addPlugin]
    cases plugin.getId.toStr with
    | error e => exact ⟨h, rfl, rfl⟩
    | ok key =>
      refine ⟨h, ?_, ?_⟩
      · simp [Session.sends, List.countP_append, Effect.isSend]
      · simp [Session.timerStarts, List.countP_append, Effect.isTimerStart]
  | removePlugin pluginId => exact ⟨h, rfl, rfl⟩
  | processOutcomeMessage message =>
    have hf := processOutcomeMessage_frame s message
    exact inert_of_frame s _ h hf.1 hf.2.1 hf.2.2.1
  | processIncomeMessage message =>
    simp only [Session.step]
    rcases processIncomeMessage_state s message with h1 | h1
    · rw [h1]
      exact ⟨h, rfl, rfl⟩
    · rw [h1]
      exact inert_of_destroy s
  | resolve index response =>
    simp only [Session.step]
    cases s.transactions.get? index with
    | none => exact ⟨h, rfl, rfl⟩
    | some t =>
      simp only [resolveTransaction_fst]
      exact runResolver_inert { s with transactions := s.transactions.eraseIdx index }
        t.resolver response h
  | send message =>
    have h1 : s.step (Op.send message) = s := by
      simp only [Session.step, send_inert s message h.1]
    rw [h1]
    exact ⟨h, rfl, rfl⟩
  | startKeepAlive =>
    have h1 : s.step Op.startKeepAlive = s := by
      simp only [Session.step, Session._startKeepAlive, h.1]
    rw [h1]
    exact ⟨h, rfl, rfl⟩
  | timeout message =>
    simp only [Session.step, onTimeout_state]
    exact inert_of_destroy s

theorem run_inert (ops : List Op) (s : Session) (h : s.inert) :
    (s.run ops).inert ∧ (s.run ops).sends = s.sends ∧
      (s.run ops).timerStarts = s.timerStarts := by
  induction ops generalizing s with
  | nil => exact ⟨h, rfl, rfl⟩
  | cons op rest ih =>
    have h1 := step_inert s op h
    have h2 := ih (s.step op) h1.1
    simp only [Session.run, List.foldl_cons]
    simp only [Session.run] at h2
    exact ⟨h2.1, h2.2.1.trans h1.2.1, h2.2.2.trans h1.2.2⟩

/-- C12. Destroyed is terminal. For every session on which `_destroy` has run
and every later sequence of operations (`attachPlugin`, `destroy`,
`addPlugin`, `removePlugin`, `processOutcomeMessage`, `processIncomeMessage`,
resolution of a pending transaction, `_send`, `_startKeepAlive`, a timeout):
the connection stays cleared, no keepalive timer is held and none is started,
no message is handed to the transport, and every `_send` returns the
rejection of a destroyed session, leaving session and message as they were. -/
theorem destroyed_is_terminal (s : Session) (ops : List Op) :
    (s._destroy.1.run ops).connection = none ∧
      (s._destroy.1.run ops).keepAliveTimer = none ∧
      (s._destroy.1.run ops).timerStarts = s.timerStarts ∧
      (s._destroy.1.run ops).sends = s.sends ∧
      ∀ message : Msg,
        (s._destroy.1.run ops)._send message =
          (s._destroy.1.run ops, message,
            Ret.rejected (JErr.error
              ("Can not send message over destroyed " ++ (s._destroy.1.run ops).toString))) := by
  have h := run_inert ops s._destroy.1 (inert_of_destroy s).1
  have hd := inert_of_destroy s
  refine ⟨h.1.1, h.1.2, h.2.2.trans hd.2.2, h.2.1.trans hd.2.1, ?_⟩
  intro message
  exact send_inert _ message h.1.1

/-- C13 as stated fails: `destroyedWhilePending` was destroyed while an
attach request was pending; its plugins mapping is empty, and the `success`
response to that request registers the plugin `h1` all the same. -/
theorem destroyed_session_registers_plugin :
    destroyedWhilePending.connection = none ∧ destroyedWhilePending.plugins = [] ∧
      (destroyedWhilePending.run
          [Op.resolve 0
            [("janus", JVal.str "success"), ("data", JVal.obj [("id", JVal.str "h1")])]]).plugins =
        [("h1", { session := "s1", name := JVal.str "echo", id := JVal.str "h1" })] ∧
      (destroyedWhilePending.run
          [Op.resolve 0
            [("janus", JVal.str "success"),
              ("data", JVal.obj [("id", JVal.str "h1")])]]).hasPlugin "h1" = true := by
  refine ⟨rfl, rfl, rfl, rfl⟩

theorem step_plugins_empty (s : Session) (op : Op) (h : s.inert) (hp : s.plugins = [])
    (hr : Op.registers s op = false) : (s.step op).plugins = [] := by
  cases op with
  | attachPlugin name transaction =>
    simp only [Session.step, Session.attachPlugin, gatewaySend_state _ _ _ h.1]
    exact (processOutcomeMessage_frame s _).2.2.2.1.trans hp
  | destroy transaction =>
    simp only [Session.step, Session.destroy, gatewaySend_state _ _ _ h.1]
    exact (processOutcomeMessage_frame s _).2.2.2.1.trans hp
  | addPlugin plugin => simp [Op.registers] at hr
  | removePlugin pluginId => simp [Session.step, Session.removePlugin, hp, pluginsDelete]
  | processOutcomeMessage message =>
    exact (processOutcomeMessage_frame s message).2.2.2.1.trans hp
  | processIncomeMessage message =>
    simp only [Session.step]
    rcases processIncomeMessage_state s message with h1 | h1
    · rw [h1]
      exact hp
    · rw [h1]
      exact (destroy_frame s).2.2.2.1
  | resolve index response =>
    simp only [Session.step]
    simp only [Op.registers] at hr
    cases hg : s.transactions.get? index with
    | none => exact hp
    | some t =>
      rw [hg] at hr
      simp only [resolveTransaction_fst]
      cases hres : t.resolver with
      | onAttach outcomeMessage =>
        simp only [hres] at hr
        simp only [Session.runResolver]
        rcases attachResolver_state { s with transactions := s.transactions.eraseIdx index }
          outcomeMessage response with h1 | ⟨h1, _⟩
        · rw [h1]
          exact hp
        · simp [h1] at hr
      | onDestroy =>
        simp only [Session.runResolver]
        rcases destroyResolver_state { s with transactions := s.transactions.eraseIdx index }
          response with h1 | h1
        · rw [h1]
          exact hp
        · rw [h1]
          exact (destroy_frame _).2.2.2.1
  | send message =>
    simp only [Session.step, send_inert s message h.1]
    exact hp
  | startKeepAlive =>
    simp only [Session.step, Session._startKeepAlive, h.1]
    exact hp
  | timeout message =>
    simp only [Session.step, onTimeout_state]
    exact (destroy_frame s).2.2.2.1

theorem run_plugins_empty (ops : List Op) (s : Session) (h : s.inert) (hp : s.plugins = [])
    (hr : s.registersNone ops = true) : (s.run ops).plugins = [] := by
  induction ops generalizing s with
  | nil => exact hp
  | cons op rest ih =>
    simp only [Session.registersNone, Bool.and_eq_true, Bool.not_eq_true'] at hr
    simp only [Session.run, List.foldl_cons]
    exact ih (s.step op) (step_inert s op h).1 (step_plugins_empty s op h hp hr.1) hr.2

/-- C13, amended. `_destroy` empties the plugins mapping, and in every state
reached afterwards through operations none of which is `addPlugin` or the
resolution of an attach transaction with a `success` response (so through
`attachPlugin`, `destroy`, `removePlugin`, `processOutcomeMessage`,
`processIncomeMessage`, `_send`, a timeout, and any other resolution of a
pending transaction) the plugins mapping is empty. -/
theorem destroyed_plugins_stay_empty (s : Session) (ops : List Op)
    (hquiet : s._destroy.1.registersNone ops = true) :
    s._destroy.1.plugins = [] ∧ (s._destroy.1.run ops).plugins = [] :=
  ⟨(destroy_frame s).2.2.2.1,
    run_plugins_empty ops s._destroy.1 (destroy_frame s).1 (destroy_frame s).2.2.2.1 hquiet⟩

/-- C13 amended, on the session destroyed while an attach was pending: an
`error` response to that attach, a timeout and a `removePlugin` leave the
mapping empty. -/
theorem destroyed_plugins_stay_empty_witness :
    (destroyedWhilePending.run
        [Op.resolve 0 [("janus", JVal.str "error")],
          Op.processIncomeMessage [("janus", JVal.str "timeout")],
          Op.removePlugin "h0"]).plugins = [] :=
  (destroyed_plugins_stay_empty
    (sampleSession.processOutcomeMessage
      [("janus", JVal.str "attach"), ("plugin", JVal.str "echo"),
        ("transaction", JVal.str "t1")]).1
    [Op.resolve 0 [("janus", JVal.str "error")],
      Op.processIncomeMessage [("janus", JVal.str "timeout")],
      Op.removePlugin "h0"] rfl).2

/-! ## Ownership of plugins -/

theorem mem_pluginsSet (ps : List (String × Plugin)) (k : String) (p : Plugin)
    (e : String × Plugin) (h : e ∈ pluginsSet ps k p) : e = (k, p) ∨ e ∈ ps := by
  induction ps with
  | nil =>
    simp [pluginsSet] at h
    exact Or.inl h
  | cons e0 rest ih =>
    obtain ⟨k0, p0⟩ := e0
    by_cases hk : k0 = k
    · simp only [pluginsSet, hk, if_true, List.mem_cons] at h
      rcases h with h | h
      · exact Or.inl h
      · exact Or.inr (List.mem_cons_of_mem _ h)
    · simp only [pluginsSet, hk, if_false, List.mem_cons] at h
      rcases h with h | h
      · exact Or.inr (by rw [h]; exact List.mem_cons_self _ _)
      · rcases ih h with h1 | h1
        · exact Or.inl h1
        · exact Or.inr (List.mem_cons_of_mem _ h1)

theorem ownsPlugins_set (s : Session) (key : String) (p : Plugin) (l : List Effect)
    (h : s.ownsPlugins) (hp : p.session = s.id) :
    Session.ownsPlugins
      { s with plugins := pluginsSet s.plugins key p, trace := s.trace ++ l } := by
  intro e he
  rcases mem_pluginsSet s.plugins key p e he with h1 | h1
  · rw [h1]
    exact hp
  · exact h e h1

theorem sampleSession_ownsPlugins : sampleSession.ownsPlugins := by
  intro e he
  have h1 : e = ("h0", Plugin.create "s1" (JVal.str "echo") (JVal.str "h0")) := by
    simpa [sampleSession] using he
  rw [h1]
  rfl

/-- C14 as stated fails for `addPlugin`: the sample session `s1` owns all its
plugins, and `addPlugin` takes a Plugin owned by the session `s2` and
registers it. -/
theorem addPlugin_takes_foreign_plugin :
    sampleSession.ownsPlugins ∧
      (sampleSession.step
          (Op.addPlugin (Plugin.create "s2" (JVal.str "echo") (JVal.str "h9")))).getPlugin "h9" =
        some { session := "s2", name := JVal.str "echo", id := JVal.str "h9" } ∧
      ¬ (sampleSession.step
          (Op.addPlugin (Plugin.create "s2" (JVal.str "echo") (JVal.str "h9")))).ownsPlugins := by
  refine ⟨sampleSession_ownsPlugins, rfl, ?_⟩
  · intro h
    have h2 := h ("h9", Plugin.create "s2" (JVal.str "echo") (JVal.str "h9"))
      (by simp [Session.step, Session.addPlugin, Plugin.getId, Plugin.create, JVal.toStr,
        sampleSession, pluginsSet])
    revert h2
    decide

/-- C14, amended. On a session that owns every Plugin in its mapping, the
resolution of an attach transaction (of any transaction, with any response),
`removePlugin` and `_destroy` leave a session that owns every Plugin in its
mapping, and so does `addPlugin` when the Plugin it is given is owned by this
session. -/
theorem plugins_stay_owned (s : Session) (howned : s.ownsPlugins) :
    (∀ (t : Transaction) (response : Msg), (s.resolveTransaction t response).1.ownsPlugins) ∧
      (∀ pluginId : String, (s.removePlugin pluginId).ownsPlugins) ∧
      s._destroy.1.ownsPlugins ∧
      (∀ (plugin : Plugin) (s1 : Session), plugin.session = s.id →
        s.addPlugin plugin = Except.ok s1 → s1.ownsPlugins) := by
  have hdestroyed : s._destroy.1.ownsPlugins := by
    intro e he
    rw [(destroy_frame s).2.2.2.1] at he
    cases he
  refine ⟨?_, ?_, hdestroyed, ?_⟩
  · intro t response
    rw [resolveTransaction_fst]
    cases t.resolver with
    | onAttach outcomeMessage =>
      simp only [Session.runResolver]
      rcases attachResolver_state s outcomeMessage response with h1 | ⟨_, p, key, hp, h1⟩
      · rw [h1]
        exact howned
      · rw [h1]
        exact ownsPlugins_set s key p _ howned hp
    | onDestroy =>
      simp only [Session.runResolver]
      rcases destroyResolver_state s response with h1 | h1
      · rw [h1]
        exact howned
      · rw [h1]
        exact hdestroyed
  · intro pluginId e he
    have h1 : e ∈ s.plugins := by
      simp only [Session.removePlugin, pluginsDelete] at he
      exact (List.mem_filter.1 he).1
    exact howned e h1
  · intro plugin s1 hp hadd
    simp only [Session.addPlugin] at hadd
    cases hk : plugin.getId.toStr with
    | error e => simp [hk] at hadd
    | ok key =>
      simp only [hk, Except.ok.injEq] at hadd
      rw [← hadd]
      exact ownsPlugins_set s key plugin _ howned hp

/-- C14 amended, on the sample session: after the `success` response to an
attach every Plugin is still owned by `s1`. -/
theorem plugins_stay_owned_witness :
    (sampleSession.resolveTransaction
      { id := JVal.str "t1",
        resolver := Resolver.onAttach [("janus", JVal.str "attach"), ("plugin", JVal.str "echo")] }
      [("janus", JVal.str "success"),
        ("data", JVal.obj [("id", JVal.str "h1")])]).1.ownsPlugins :=
  (plugins_stay_owned sampleSession sampleSession_ownsPlugins).1
    { id := JVal.str "t1",
      resolver := Resolver.onAttach [("janus", JVal.str "attach"), ("plugin", JVal.str "echo")] }
    [("janus", JVal.str "success"), ("data", JVal.obj [("id", JVal.str "h1")])]

/-! ## Income messages for a plugin -/

theorem strictEqStr_of_ne (lit : String) (v : JVal) (h : v ≠ JVal.str lit) :
    JVal.strictEqStr lit v = false := by
  cases v with
  | str t =>
    have h1 : ¬ (lit = t) := fun h2 => h (by rw [h2])
    simp [JVal.strictEqStr, h1]
  | _ => rfl

theorem processIncomeMessage_routes (s : Session) (message : Msg) (key : String)
    (plugin : Plugin) (hverb : message.get "janus" ≠ JVal.str "timeout")
    (hregistered : s.getPlugin key = some plugin) :
    ((message.get "handle_id").truthy = true →
        (message.get "handle_id").toStr = Except.ok key →
        s.processIncomeMessage message = (s, Ret.pluginIncome plugin message)) ∧
      ((message.get "handle_id").truthy = false → (message.get "sender").truthy = true →
        (message.get "sender").toStr = Except.ok key →
        s.processIncomeMessage message = (s, Ret.pluginIncome plugin message)) := by
  have hv := strictEqStr_of_ne "timeout" _ hverb
  constructor
  · intro ht hk
    simp [Session.processIncomeMessage, hv, ht, hk, Session.hasPlugin, hregistered]
  · intro hf ht hk
    simp [Session.processIncomeMessage, hv, hf, ht, hk, Session.hasPlugin, hregistered]

/-- C19 as stated fails: `attachedSession` holds the plugin `h1`, added by
`addPlugin`; the income message `detached` from `h1` is routed to the plugin,
whose handler emits `detach`; the listener of lines 95-97 then removes the
plugin, so the call returns what the plugin returns and the session state has
changed: the plugins mapping is empty. -/
theorem plugin_detach_changes_session :
    attachedSession.plugins =
        [("h1", { session := "s1", name := JVal.str "echo", id := JVal.str "h1" })] ∧
      attachedSession.hasPlugin "h1" = true ∧
      (attachedSession.processIncomeMessageVia detachingHandler
          [("janus", JVal.str "detached"), ("sender", JVal.str "h1")]).2 =
        (detachingHandler { session := "s1", name := JVal.str "echo", id := JVal.str "h1" }
          [("janus", JVal.str "detached"), ("sender", JVal.str "h1")]).result ∧
      (attachedSession.processIncomeMessageVia detachingHandler
          [("janus", JVal.str "detached"), ("sender", JVal.str "h1")]).1.plugins = [] ∧
      (attachedSession.processIncomeMessageVia detachingHandler
          [("janus", JVal.str "detached"), ("sender", JVal.str "h1")]).1.hasPlugin "h1" =
        false := by
  refine ⟨rfl, rfl, rfl, rfl, rfl⟩

/-- C19, amended. For every session, every handler of the plugin and every
income message whose verb is not `timeout`: when the message carries a
`handle_id` (a truthy one, as the code tests it) that is the id of a
registered plugin, `processIncomeMessage` returns what `processIncomeMessage`
of that plugin returns for the message, whatever `sender` is; when it carries
no `handle_id` and its `sender` is the id of a registered plugin, it returns
what that plugin returns. The session changes nothing of its own: the state
afterwards is the state before, unless the plugin emits `detach` during the
call and `addPlugin` has registered the listener on it, in which case the
state is that of `removePlugin` for the id of the plugin. `key` is the id as a
property key, the id itself for a string. -/
theorem income_handled_by_plugin (handler : Plugin → Msg → PluginRun) (s : Session)
    (message : Msg) (key : String) (plugin : Plugin)
    (hverb : message.get "janus" ≠ JVal.str "timeout")
    (hregistered : s.getPlugin key = some plugin) :
    ((message.get "handle_id").truthy = true →
        (message.get "handle_id").toStr = Except.ok key →
        s.processIncomeMessageVia handler message =
          (s.afterPluginRun plugin (handler plugin message),
            (handler plugin message).result)) ∧
      ((message.get "handle_id").truthy = false → (message.get "sender").truthy = true →
        (message.get "sender").toStr = Except.ok key →
        s.processIncomeMessageVia handler message =
          (s.afterPluginRun plugin (handler plugin message),
            (handler plugin message).result)) ∧
      ((handler plugin message).detached = false →
        s.afterPluginRun plugin (handler plugin message) = s) ∧
      (s.detachKey plugin = none → s.afterPluginRun plugin (handler plugin message) = s) ∧
      (∀ k : String, (handler plugin message).detached = true → s.detachKey plugin = some k →
        plugin.getId.toStr = Except.ok k ∧
        s.afterPluginRun plugin (handler plugin message) = s.removePlugin k) := by
  have hroute := processIncomeMessage_routes s message key plugin hverb hregistered
  refine ⟨?_, ?_, ?_, ?_, ?_⟩
  · intro ht hk
    simp [Session.processIncomeMessageVia, hroute.1 ht hk]
  · intro hf ht hk
    simp [Session.processIncomeMessageVia, hroute.2 hf ht hk]
  · intro hd
    simp [Session.afterPluginRun, hd]
  · intro hnone
    cases hd : (handler plugin message).detached <;> simp [Session.afterPluginRun, hd, hnone]
  · intro k hd hk
    refine ⟨?_, by simp [Session.afterPluginRun, hd, hk]⟩
    simp only [Session.detachKey] at hk
    cases hid : plugin.getId.toStr with
    | error e => simp [hid] at hk
    | ok k0 =>
      simp only [hid] at hk
      split at hk
      · simp only [Option.some.injEq] at hk
        rw [hk]
      · cases hk

/-- C19 amended, on the session that holds `h1`: an event from `h1` named by
`sender` leaves the session as it was, and an event that names `h1` by
`handle_id` and another plugin by `sender` goes to `h1`. -/
theorem income_handled_by_plugin_witness :
    attachedSession.processIncomeMessageVia detachingHandler
          [("janus", JVal.str "event"), ("sender", JVal.str "h1")] =
        (attachedSession,
          Ret.fulfilled (Value.js (JVal.obj
            [("janus", JVal.str "event"), ("sender", JVal.str "h1")]))) ∧
      attachedSession.processIncomeMessageVia detachingHandler
          [("janus", JVal.str "event"), ("handle_id", JVal.str "h1"),
            ("sender", JVal.str "hX")] =
        (attachedSession,
          Ret.fulfilled (Value.js (JVal.obj
            [("janus", JVal.str "event"), ("handle_id", JVal.str "h1"),
              ("sender", JVal.str "hX")]))) :=
  ⟨((income_handled_by_plugin detachingHandler attachedSession
      [("janus", JVal.str "event"), ("sender", JVal.str "h1")] "h1"
      (Plugin.create "s1" (JVal.str "echo") (JVal.str "h1")) (by simp [Msg.get]) rfl).2.1
      rfl rfl rfl).trans rfl,
    ((income_handled_by_plugin detachingHandler attachedSession
      [("janus", JVal.str "event"), ("handle_id", JVal.str "h1"), ("sender", JVal.str "hX")]
      "h1" (Plugin.create "s1" (JVal.str "echo") (JVal.str "h1")) (by simp [Msg.get]) rfl).1
      rfl rfl).trans rfl⟩

/-! ## The tracked entity -/

theorem EVal.strictEq_eq (a b : EVal) (h : EVal.strictEq a b = true) : a = b := by
  cases a with
  | undefined => cases b <;> simp_all [EVal.strictEq]
  | null => cases b <;> simp_all [EVal.strictEq]
  | str s => cases b <;> simp_all [EVal.strictEq]
  | num x =>
    cases b with
    | num y => cases x <;> cases y <;> simp_all [EVal.strictEq]
    | _ => simp [EVal.strictEq] at h

theorem EVal.strictEq_self (a : EVal) (h : a.truthy = true) : EVal.strictEq a a = true := by
  cases a with
  | undefined => simp [EVal.truthy] at h
  | null => simp [EVal.truthy] at h
  | str s => simp [EVal.strictEq]
  | num x => cases x <;> simp_all [EVal.strictEq, EVal.truthy]

theorem EVal.strictEq_null (a : EVal) (h : a.truthy = true) :
    EVal.strictEq a EVal.null = false := by
  cases a with
  | undefined => simp [EVal.truthy] at h
  | null => simp [EVal.truthy] at h
  | str s => rfl
  | num x => cases x <;> rfl

/-- C20 as stated fails at the ids 0 and the empty string: after
`setCurrentEntity(0)` neither `hasCurrentEntity(0)` nor `hasCurrentEntity()`
is true, and while the entity 5 is tracked `hasCurrentEntity(0)` is true
although 0 is another id. -/
theorem falsy_entity_id_not_tracked :
    (MediaEntityPlugin.create.setCurrentEntity (EVal.num (JNum.fin 0))).hasCurrentEntity
        (EVal.num (JNum.fin 0)) = false ∧
      (MediaEntityPlugin.create.setCurrentEntity (EVal.num (JNum.fin 0))).hasCurrentEntity
        EVal.undefined = false ∧
      (MediaEntityPlugin.create.setCurrentEntity (EVal.str "")).hasCurrentEntity
        (EVal.str "") = false ∧
      EVal.num (JNum.fin 0) ≠ EVal.num (JNum.fin 5) ∧
      (MediaEntityPlugin.create.setCurrentEntity (EVal.num (JNum.fin 5))).hasCurrentEntity
        (EVal.num (JNum.fin 0)) = true := by
  refine ⟨by decide, by decide, by decide, by decide, by decide⟩

/-- C20, amended. For every truthy entity id (a non-empty string, or a number
other than 0 and `NaN`): after `setCurrentEntity(id)` both
`hasCurrentEntity(id)` and `hasCurrentEntity()` are true and
`hasCurrentEntity(other)` is false for every other truthy id. After
`resetCurrentEntity()` `hasCurrentEntity()` and `hasCurrentEntity(id)` are
false for every id whatever. -/
theorem current_entity_tracking (p : MediaEntityPlugin) (id : EVal)
    (htruthy : id.truthy = true) :
    (p.setCurrentEntity id).hasCurrentEntity id = true ∧
      (p.setCurrentEntity id).hasCurrentEntity EVal.undefined = true ∧
      (∀ other : EVal, other.truthy = true → other ≠ id →
        (p.setCurrentEntity id).hasCurrentEntity other = false) ∧
      p.resetCurrentEntity.hasCurrentEntity EVal.undefined = false ∧
      ∀ any : EVal, p.resetCurrentEntity.hasCurrentEntity any = false := by
  have hreset : ∀ any : EVal, p.resetCurrentEntity.hasCurrentEntity any = false := by
    intro any
    cases hany : any.truthy with
    | false =>
      have hn : EVal.null.truthy = false := rfl
      simp [MediaEntityPlugin.hasCurrentEntity, MediaEntityPlugin.resetCurrentEntity, hany, hn]
    | true =>
      simp [MediaEntityPlugin.hasCurrentEntity, MediaEntityPlugin.resetCurrentEntity, hany,
        EVal.strictEq_null any hany]
  refine ⟨?_, ?_, ?_, hreset EVal.undefined, hreset⟩
  · simp [MediaEntityPlugin.hasCurrentEntity, MediaEntityPlugin.setCurrentEntity, htruthy,
      EVal.strictEq_self id htruthy]
  · have hu : EVal.undefined.truthy = false := rfl
    simp [MediaEntityPlugin.hasCurrentEntity, MediaEntityPlugin.setCurrentEntity, htruthy, hu]
  · intro other hother hne
    have h1 : EVal.strictEq other id = false := by
      cases h2 : EVal.strictEq other id with
      | false => rfl
      | true => exact absurd (EVal.strictEq_eq other id h2) hne
    simp [MediaEntityPlugin.hasCurrentEntity, MediaEntityPlugin.setCurrentEntity, hother, h1]

/-- C20 amended, at the entity id 5. -/
theorem current_entity_tracking_witness :
    (MediaEntityPlugin.create.setCurrentEntity (EVal.num (JNum.fin 5))).hasCurrentEntity
        (EVal.num (JNum.fin 5)) = true ∧
      (MediaEntityPlugin.create.setCurrentEntity (EVal.num (JNum.fin 5))).hasCurrentEntity
        (EVal.str "5") = false :=
  ⟨(current_entity_tracking MediaEntityPlugin.create (EVal.num (JNum.fin 5)) (by decide)).1,
    (current_entity_tracking MediaEntityPlugin.create (EVal.num (JNum.fin 5)) (by decide)).2.2.1
      (EVal.str "5") (by decide) (by decide)⟩

/-! ## Connecting to an entity -/

/-- C15 as stated fails at the id 0: while the entity 5 is tracked,
`connect(0)` fulfils at once with an empty response and sends nothing, though
0 is not the tracked entity and a `switch` is due; and while the entity 0 is
the tracked one, `connect(0)` sends a `watch` request. -/
theorem connect_falsy_id_counterexample :
    EVal.strictEq (EVal.num (JNum.fin 0)) watchingFive.currentEntityId = false ∧
      MediaStreamPlugin.connect watchingFive (EVal.num (JNum.fin 0)) JVal.undefined
          JVal.undefined (Reply.fulfilled { response := [] }) =
        (watchingFive, MRet.fulfilled (some { response := [] })) ∧
      (MediaStreamPlugin.connect
          (MediaEntityPlugin.setCurrentEntity watchingFive (EVal.num (JNum.fin 0)))
          (EVal.num (JNum.fin 0)) JVal.undefined JVal.undefined
          (Reply.rejected { message := "no such mountpoint", response := none })).1.requests =
        [{ literal := [("request", EVal.str "watch"), ("id", EVal.num (JNum.fin 0))],
           options := some JVal.undefined }] := by
  refine ⟨by decide, ?_, ?_⟩
  · have h : MediaEntityPlugin.hasCurrentEntity watchingFive (EVal.num (JNum.fin 0)) = true := by
      decide
    simp [MediaStreamPlugin.connect, h]
  · have h1 : MediaEntityPlugin.hasCurrentEntity
        (MediaEntityPlugin.setCurrentEntity watchingFive (EVal.num (JNum.fin 0)))
        (EVal.num (JNum.fin 0)) = false := by decide
    have h2 : MediaEntityPlugin.hasCurrentEntity
        (MediaEntityPlugin.setCurrentEntity watchingFive (EVal.num (JNum.fin 0)))
        EVal.undefined = false := by decide
    simp only [MediaStreamPlugin.connect, h1, h2]
    simp [MediaStreamPlugin._watch, MediaEntityPlugin.setCurrentEntity, watchingFive]

/-- C15, amended. For every state and every truthy entity id (a non-empty
string, or a number other than 0 and `NaN`), `connect(id, ...)` takes exactly
one of three actions: when `id` is the tracked entity it fulfils at once with
an empty PluginResponse, sends nothing and leaves the state as it was;
otherwise, when an entity is tracked (`_currentEntityId` is truthy), it is the
call `_switch(id, watchOptions)`, which sends one `switch` request for `id`;
otherwise it is the call `_watch(id, watchOptions, answerOptions)`, which sends
one `watch` request for `id`. -/
theorem connect_chooses_action (p : MediaStreamPlugin) (id : EVal)
    (watchOptions answerOptions : JVal) (reply : Reply) (htruthy : id.truthy = true) :
    (EVal.strictEq id p.currentEntityId = true →
        MediaStreamPlugin.connect p id watchOptions answerOptions reply =
          (p, MRet.fulfilled (some { response := [] }))) ∧
      (EVal.strictEq id p.currentEntityId = false → p.currentEntityId.truthy = true →
        MediaStreamPlugin.connect p id watchOptions answerOptions reply =
            MediaStreamPlugin._switch p id watchOptions reply ∧
          (MediaStreamPlugin.connect p id watchOptions answerOptions reply).1.requests =
            p.requests ++
              [{ literal := [("request", EVal.str "switch"), ("id", id)],
                 options := some watchOptions }]) ∧
      (EVal.strictEq id p.currentEntityId = false → p.currentEntityId.truthy = false →
        MediaStreamPlugin.connect p id watchOptions answerOptions reply =
            MediaStreamPlugin._watch p id watchOptions answerOptions reply ∧
          (MediaStreamPlugin.connect p id watchOptions answerOptions reply).1.requests =
            p.requests ++
              [{ literal := [("request", EVal.str "watch"), ("id", id)],
                 options := some watchOptions }]) := by
  have hu : EVal.undefined.truthy = false := rfl
  have hswitch : (MediaStreamPlugin._switch p id watchOptions reply).1.requests =
      p.requests ++ [{ literal := [("request", EVal.str "switch"), ("id", id)],
                       options := some watchOptions }] := by
    cases reply <;> rfl
  have hwatch : (MediaStreamPlugin._watch p id watchOptions answerOptions reply).1.requests =
      p.requests ++ [{ literal := [("request", EVal.str "watch"), ("id", id)],
                       options := some watchOptions }] := by
    cases reply with
    | rejected error => rfl
    | fulfilled response =>
      simp only [MediaStreamPlugin._watch]
      repeat' split
      all_goals rfl
  refine ⟨?_, ?_, ?_⟩
  · intro heq
    simp [MediaStreamPlugin.connect, MediaEntityPlugin.hasCurrentEntity, htruthy, heq]
  · intro hne htracked
    have h : MediaStreamPlugin.connect p id watchOptions answerOptions reply =
        MediaStreamPlugin._switch p id watchOptions reply := by
      simp [MediaStreamPlugin.connect, MediaEntityPlugin.hasCurrentEntity, htruthy, hne, hu,
        htracked]
    exact ⟨h, by rw [h]; exact hswitch⟩
  · intro hne hnone
    have h : MediaStreamPlugin.connect p id watchOptions answerOptions reply =
        MediaStreamPlugin._watch p id watchOptions answerOptions reply := by
      simp [MediaStreamPlugin.connect, MediaEntityPlugin.hasCurrentEntity, htruthy, hne, hu,
        hnone]
    exact ⟨h, by rw [h]; exact hwatch⟩

/-- C15 amended, while the entity 5 is tracked: `connect(5)` sends nothing and
`connect(7)` sends a `switch` request for 7. -/
theorem connect_chooses_action_witness :
    MediaStreamPlugin.connect watchingFive (EVal.num (JNum.fin 5)) JVal.undefined JVal.undefined
          (Reply.fulfilled { response := [] }) =
        (watchingFive, MRet.fulfilled (some { response := [] })) ∧
      (MediaStreamPlugin.connect watchingFive (EVal.num (JNum.fin 7)) JVal.undefined
          JVal.undefined (Reply.fulfilled { response := [] })).1.requests =
        watchingFive.requests ++
          [{ literal := [("request", EVal.str "switch"), ("id", EVal.num (JNum.fin 7))],
             options := some JVal.undefined }] :=
  ⟨(connect_chooses_action watchingFive (EVal.num (JNum.fin 5)) JVal.undefined JVal.undefined
      (Reply.fulfilled { response := [] }) (by decide)).1 (by decide),
    ((connect_chooses_action watchingFive (EVal.num (JNum.fin 7)) JVal.undefined JVal.undefined
      (Reply.fulfilled { response := [] }) (by decide)).2.1 (by decide) (by decide)).2⟩

/-! ## Creating an entity -/

/-- C16. The code at a failing input: the `create` request fails with an error
whose message is `already exists`, so the text occurs in it, at index 0; the
test `indexOf(...) > 0` is false and `_create` rejects with the error instead
of fulfilling with its response. With the same text further on, as in
`Room 1234 already exists`, `_create` fulfils with the response of the
error. -/
theorem create_rejects_leading_already_exists :
    jsIndexOf "already exists" "already exists" = 0 ∧
      (MediaEntityPlugin._create MediaEntityPlugin.create JVal.undefined
          (Reply.rejected
            { message := "already exists",
              response := some { response := [("janus", JVal.str "error")] } })).2 =
        MRet.rejected
          { message := "already exists",
            response := some { response := [("janus", JVal.str "error")] } } ∧
      jsIndexOf "Room 1234 already exists" "already exists" = 10 ∧
      (MediaEntityPlugin._create MediaEntityPlugin.create JVal.undefined
          (Reply.rejected
            { message := "Room 1234 already exists",
              response := some { response := [("janus", JVal.str "error")] } })).2 =
        MRet.fulfilled (some { response := [("janus", JVal.str "error")] }) := by
  refine ⟨by decide, rfl, by decide, rfl⟩

/-! ## Stopping, switching and watching -/

/-- C17. For every state of a MediaStreamPlugin: after a `stop` request that
succeeds the response is returned unchanged and no entity is tracked,
`hasCurrentEntity()` and `hasCurrentEntity(id)` being false for every id; when
the request fails the promise rejects with its error and the tracked entity is
what it was. Either way one `stop` request was sent. -/
theorem stop_clears_tracked_entity (p : MediaStreamPlugin) (response : PluginResponse)
    (error : PluginError) :
    (MediaStreamPlugin._stop p (Reply.fulfilled response)).2 = MRet.fulfilled (some response) ∧
      MediaEntityPlugin.hasCurrentEntity
        (MediaStreamPlugin._stop p (Reply.fulfilled response)).1 EVal.undefined = false ∧
      (∀ id : EVal, MediaEntityPlugin.hasCurrentEntity
        (MediaStreamPlugin._stop p (Reply.fulfilled response)).1 id = false) ∧
      (MediaStreamPlugin._stop p (Reply.rejected error)).2 = MRet.rejected error ∧
      (MediaStreamPlugin._stop p (Reply.rejected error)).1.currentEntityId =
        p.currentEntityId ∧
      (∀ id : EVal, MediaEntityPlugin.hasCurrentEntity
        (MediaStreamPlugin._stop p (Reply.rejected error)).1 id =
          MediaEntityPlugin.hasCurrentEntity p id) ∧
      (MediaStreamPlugin._stop p (Reply.fulfilled response)).1.requests =
        p.requests ++ [{ literal := [("request", EVal.str "stop")], options := none }] ∧
      (MediaStreamPlugin._stop p (Reply.rejected error)).1.requests =
        p.requests ++ [{ literal := [("request", EVal.str "stop")], options := none }] := by
  have hnull : ∀ (q : MediaEntityPlugin) (id : EVal), q.currentEntityId = EVal.null →
      MediaEntityPlugin.hasCurrentEntity q id = false := by
    intro q id hq
    have hn : EVal.null.truthy = false := rfl
    cases hid : id.truthy with
    | false => simp [MediaEntityPlugin.hasCurrentEntity, hid, hq, hn]
    | true => simp [MediaEntityPlugin.hasCurrentEntity, hid, hq, EVal.strictEq_null id hid]
  refine ⟨rfl, hnull _ _ rfl, fun id => hnull _ id rfl, rfl, rfl, fun id => rfl, rfl, rfl⟩

/-- C18. For every entity id: a `switch` request for `id` that succeeds makes
`id` the tracked entity and returns the response; a `watch` request for `id`
whose response carries a `jsep` of type `offer` makes `id` the tracked entity
and goes on to start the media streaming; a `watch` request whose response
carries no such `jsep` leaves the tracked entity as it was and fails with the
error a handler raises, which is `Expect offer response on watch request`
(unless the type is an object with an own `toString`, whose comparison
raises); a `switch` or `watch` request that fails leaves the tracked entity as
it was and rejects with its error. -/
theorem switch_watch_track_entity (p : MediaStreamPlugin) (id : EVal)
    (options answerOptions : JVal) (response : PluginResponse) (error : PluginError) :
    (MediaStreamPlugin._switch p id options (Reply.fulfilled response)).1.currentEntityId = id ∧
      (MediaStreamPlugin._switch p id options (Reply.fulfilled response)).2 =
        MRet.fulfilled (some response) ∧
      (MediaStreamPlugin._switch p id options (Reply.rejected error)).1.currentEntityId =
        p.currentEntityId ∧
      (MediaStreamPlugin._switch p id options (Reply.rejected error)).2 = MRet.rejected error ∧
      (MediaStreamPlugin._watch p id options answerOptions
        (Reply.rejected error)).1.currentEntityId = p.currentEntityId ∧
      (MediaStreamPlugin._watch p id options answerOptions (Reply.rejected error)).2 =
        MRet.rejected error ∧
      ((response.get "jsep").truthy = true →
        (response.get "jsep").getProp "type" = Except.ok (JVal.str "offer") →
        (MediaStreamPlugin._watch p id options answerOptions
            (Reply.fulfilled response)).1.currentEntityId = id ∧
          (MediaStreamPlugin._watch p id options answerOptions (Reply.fulfilled response)).2 =
            MRet.afterStreaming (response.get "jsep") answerOptions response) ∧
      (¬ ((response.get "jsep").truthy = true ∧
          (response.get "jsep").getProp "type" = Except.ok (JVal.str "offer")) →
        (MediaStreamPlugin._watch p id options answerOptions
            (Reply.fulfilled response)).1.currentEntityId = p.currentEntityId ∧
          ∃ e : JErr,
            (MediaStreamPlugin._watch p id options answerOptions (Reply.fulfilled response)).2 =
              MRet.raised e ∧
            ((∀ fields, (response.get "jsep").getProp "type" = Except.ok (JVal.obj fields) →
                Msg.has fields "toString" = false) →
              e = JErr.error "Expect offer response on watch request")) := by
  refine ⟨rfl, rfl, rfl, rfl, rfl, rfl, ?_, ?_⟩
  · intro ht htype
    simp [MediaStreamPlugin._watch, ht, htype, JVal.looseEqStr,
      MediaEntityPlugin.setCurrentEntity]
  · intro hno
    cases ht : (response.get "jsep").truthy with
    | false =>
      refine ⟨by simp [MediaStreamPlugin._watch, ht], JErr.error _, ?_, fun _ => rfl⟩
      simp [MediaStreamPlugin._watch, ht]
    | true =>
      have hgp : ∃ type, (response.get "jsep").getProp "type" = Except.ok type := by
        cases hj : response.get "jsep" with
        | undefined => rw [hj] at ht; simp [JVal.truthy] at ht
        | null => rw [hj] at ht; simp [JVal.truthy] at ht
        | bool b => exact ⟨_, rfl⟩
        | str t => exact ⟨_, rfl⟩
        | obj fields => exact ⟨_, rfl⟩
      obtain ⟨type, htype⟩ := hgp
      have hne : type ≠ JVal.str "offer" := by
        intro h
        exact hno ⟨ht, by rw [htype, h]⟩
      cases hl : JVal.looseEqStr "offer" type with
      | error e0 =>
        refine ⟨by simp [MediaStreamPlugin._watch, ht, htype, hl], e0, ?_, ?_⟩
        · simp [MediaStreamPlugin._watch, ht, htype, hl]
        · intro hobj
          cases type with
          | obj fields =>
            have h1 := hobj fields htype
            simp [JVal.looseEqStr, h1] at hl
          | undefined => simp [JVal.looseEqStr] at hl
          | null => simp [JVal.looseEqStr] at hl
          | bool b => simp [JVal.looseEqStr] at hl
          | str t => simp [JVal.looseEqStr] at hl
      | ok b =>
        cases b with
        | false =>
          refine ⟨by simp [MediaStreamPlugin._watch, ht, htype, hl], JErr.error _, ?_,
            fun _ => rfl⟩
          simp [MediaStreamPlugin._watch, ht, htype, hl]
        | true =>
          exfalso
          cases type with
          | str t =>
            simp [JVal.looseEqStr] at hl
            exact hne (by rw [← hl])
          | obj fields =>
            by_cases hh : Msg.has fields "toString" = true
            · simp [JVal.looseEqStr, hh] at hl
            · simp [JVal.looseEqStr, hh] at hl
          | undefined => simp [JVal.looseEqStr] at hl
          | null => simp [JVal.looseEqStr] at hl
          | bool b => simp [JVal.looseEqStr] at hl

/-- C18, at a `watch` for the entity 7: an offer makes 7 the tracked entity, a
response without `jsep` leaves the entity 5 tracked. -/
theorem switch_watch_track_entity_witness :
    (MediaStreamPlugin._watch watchingFive (EVal.num (JNum.fin 7)) JVal.undefined JVal.undefined
        (Reply.fulfilled
          { response := [("jsep", JVal.obj [("type", JVal.str "offer")])] })).1.currentEntityId =
        EVal.num (JNum.fin 7) ∧
      (MediaStreamPlugin._watch watchingFive (EVal.num (JNum.fin 7)) JVal.undefined JVal.undefined
        (Reply.fulfilled { response := [] })).1.currentEntityId = watchingFive.currentEntityId :=
  ⟨((switch_watch_track_entity watchingFive (EVal.num (JNum.fin 7)) JVal.undefined
      JVal.undefined { response := [("jsep", JVal.obj [("type", JVal.str "offer")])] }
      { message := "", response := none }).2.2.2.2.2.2.1 rfl rfl).1,
    ((switch_watch_track_entity watchingFive (EVal.num (JNum.fin 7)) JVal.undefined
      JVal.undefined { response := [] }
      { message := "", response := none }).2.2.2.2.2.2.2
      (by simp [PluginResponse.get, Msg.get, JVal.truthy])).1⟩

end Janus
